import Mathlib

/-!
Verification of the HTP table-state pipeline against its specification.

The development shallowly embeds the pipeline's core in Lean 4:

* the seat registry of `plugins/card_detector_plugin.py` (class `Seat`,
  `CardDetectorPlugin._gestionar_asientos`),
* the detection-stabilization buffer (`_consolidar_buffer`) and the opponent
  grouping (`_agrupar_rivales`) together with the hero/board post-processing
  of `CardDetectorPlugin.process`,
* the geometric table-format classifier (`_inferir_formato_geometrico` and
  the `GG_LAYOUTS` table),
* the crop scaling/clamping of `HTP.py` (`HTPOrchestrator.main_loop`) and the
  table-format write of `plugins/detectar_mesa.py` (`TableSizerPlugin.process`).

Modelling conventions: Python floats are modelled by exact rationals where the
code only adds, multiplies and compares coordinates, and by real numbers where
`math.hypot` (a square root) enters a value that is stored or summed.
`time.time()` is modelled by a single rational timestamp `now` per evaluation.
`math.hypot(a, b) < c` for a nonnegative threshold `c` is equivalent to
`a^2 + b^2 < c^2`; where a definition uses that equivalent squared form, a
lemma ties it back to the square-root form used by the embedded real-valued
definitions.
-/

/-! ## Configuration constants (card_detector_plugin.py, lines 25-43) -/

def BUFFER_SIZE : ℕ := 6

def CONFIRMATION_THRESHOLD : ℕ := 2

/-- Maximum horizontal distance, as a fraction of the frame width, for grouping
cards into one seat. -/
def MIN_SEAT_DISTANCE : ℚ := 12/100

/-- Seconds a CONFIRMED seat is kept without a match. -/
def SEAT_CONFIRMED_TIMEOUT : ℚ := 300

/-- Seconds a CANDIDATE seat is kept without a match. -/
def SEAT_CANDIDATE_TIMEOUT : ℚ := 2

/-- Matches needed to promote a seat from CANDIDATE to CONFIRMED. -/
def SEAT_CREATION_FRAMES : ℕ := 8

/-! ## The canonical layout table (GG_LAYOUTS, lines 46-53)

Coordinates are the source's decimal literals written as exact rationals,
for example 0.68 = 17/25 and 0.15 = 3/20. Index 0 of every layout is the
hero's bottom-center position (0.50, 0.68). -/

def layout3Max : List (ℚ × ℚ) := [(1/2, 17/25), (1/5, 7/20), (4/5, 7/20)]

def layout4Max : List (ℚ × ℚ) :=
  [(1/2, 17/25), (3/20, 9/20), (1/2, 1/4), (17/20, 9/20)]

def layout5Max : List (ℚ × ℚ) :=
  [(1/2, 17/25), (9/50, 11/20), (9/50, 7/25), (41/50, 7/25), (41/50, 11/20)]

def layout6Max : List (ℚ × ℚ) :=
  [(1/2, 17/25), (7/25, 13/20), (3/25, 9/20), (7/20, 1/4), (13/20, 1/4),
   (22/25, 9/20), (18/25, 13/20)]

def layout8Max : List (ℚ × ℚ) :=
  [(1/2, 17/25), (3/10, 33/50), (3/20, 1/2), (3/20, 3/10), (2/5, 11/50),
   (3/5, 11/50), (17/20, 3/10), (17/20, 1/2), (7/10, 33/50)]

def layout9Max : List (ℚ × ℚ) :=
  [(1/2, 17/25), (8/25, 33/50), (4/25, 13/25), (7/50, 8/25), (3/10, 11/50),
   (7/10, 11/50), (43/50, 8/25), (21/25, 13/25), (17/25, 33/50)]

/-- The layout table, in the source's (insertion) order; Python 3.7+ dicts
iterate in insertion order, so the classifier's `for nombre, layout in
GG_LAYOUTS.items()` loop visits the layouts in this order. -/
def GG_LAYOUTS : List (String × List (ℚ × ℚ)) :=
  [("3-Max", layout3Max), ("4-Max", layout4Max), ("5-Max", layout5Max),
   ("6-Max", layout6Max), ("8-Max", layout8Max), ("9-Max", layout9Max)]

/-! ## The Seat class (lines 56-74) -/

structure Seat where
  center_x : ℚ
  center_y : ℚ
  last_seen_time : ℚ
  detection_count : ℕ
  is_confirmed : Bool
deriving DecidableEq

instance : Inhabited Seat := ⟨⟨0, 0, 0, 1, false⟩⟩

/-- `Seat.__init__(x, y)` at wall-clock time `now`. -/
def Seat.new (x y now : ℚ) : Seat := ⟨x, y, now, 1, false⟩

/-- `Seat.update(x, y)` at wall-clock time `now`: exponential position
smoothing, timestamp refresh, match-count increment, and promotion to
CONFIRMED once the count reaches `SEAT_CREATION_FRAMES`. -/
def Seat.update (s : Seat) (x y now : ℚ) : Seat :=
  ⟨s.center_x * (9/10) + x * (1/10),
   s.center_y * (9/10) + y * (1/10),
   now,
   s.detection_count + 1,
   if SEAT_CREATION_FRAMES ≤ s.detection_count + 1 then true else s.is_confirmed⟩

/-- A seat's whole lifetime from creation: the fold of `Seat.update` over a
list of observed (x, y, now) triples. -/
def Seat.applyUpdates (s : Seat) : List (ℚ × ℚ × ℚ) → Seat
  | [] => s
  | u :: rest => (s.update u.1 u.2.1 u.2.2).applyUpdates rest

/-! ## The seat registry (`_gestionar_asientos`, lines 296-366)

Items carry (center x, center y, label); only the coordinates matter to the
registry. -/

/-- The key order used by every `sort(key=lambda x: x[0])` in the source:
compare items by their horizontal position. -/
abbrev leX (a b : ℚ × ℚ × String) : Prop := a.1 ≤ b.1

instance : DecidableRel leX := fun a b => inferInstanceAs (Decidable (a.1 ≤ b.1))

instance : IsTotal (ℚ × ℚ × String) leX := ⟨fun a b => le_total a.1 b.1⟩

instance : IsTrans (ℚ × ℚ × String) leX := ⟨fun _ _ _ h1 h2 => le_trans h1 h2⟩

/-- Python's stable `sort(key=lambda x: x[0])`, modelled by insertion sort on
the horizontal position. -/
def sortByX (l : List (ℚ × ℚ × String)) : List (ℚ × ℚ × String) :=
  l.insertionSort leX

/-- Step 1 of `_gestionar_asientos`: walk the x-sorted detections and group
consecutive runs whose successive horizontal gaps stay below
`ancho * MIN_SEAT_DISTANCE`; each finished run contributes its centroid.
The running group is kept most-recent-first, so the source's
`cluster_group[-1]` is the head. -/
def buildClusters (ancho : ℤ) (sorted : List (ℚ × ℚ × String)) : List (ℚ × ℚ) :=
  match sorted with
  | [] => []
  | first :: rest =>
    let centroidOf : List (ℚ × ℚ × String) → ℚ × ℚ := fun g =>
      ((g.map (fun c => c.1)).sum / g.length, (g.map (fun c => c.2.1)).sum / g.length)
    let st := rest.foldl
      (fun (st : List (ℚ × ℚ × String) × List (ℚ × ℚ)) item =>
        match st.1 with
        | [] => ([item], st.2)
        | prev :: _ =>
          if |item.1 - prev.1| < (ancho : ℚ) * MIN_SEAT_DISTANCE then
            (item :: st.1, st.2)
          else
            ([item], st.2 ++ [centroidOf st.1]))
      ([first], [])
    st.2 ++ [centroidOf st.1]

/-- Step 2's inner scan: the seat the cluster at (cx, cy) matches, if any.
A seat qualifies when its horizontal distance is below `ancho * 0.15` and its
vertical distance below `ancho * 0.2`; among qualifying seats the scan keeps
the first one attaining the minimum horizontal distance (`dx < min_dist` is a
strict improvement test). -/
def bestSeatIdx (ss : List Seat) (c : ℚ × ℚ) (ancho : ℤ) : Option ℕ :=
  (ss.enum.foldl
    (fun (best : Option (ℕ × ℚ)) is =>
      let dx := |is.2.center_x - c.1|
      let dy := |is.2.center_y - c.2|
      if dx < (ancho : ℚ) * (15/100) ∧ dy < (ancho : ℚ) * (2/10) then
        match best with
        | none => some (is.1, dx)
        | some b => if dx < b.2 then some (is.1, dx) else best
      else best)
    none).map Prod.fst

/-- Step 2 of `_gestionar_asientos` for one cluster: update the matched seat
in place, or append a fresh CANDIDATE seat. -/
def matchCluster (ss : List Seat) (c : ℚ × ℚ) (ancho : ℤ) (now : ℚ) : List Seat :=
  match bestSeatIdx ss c ancho with
  | some i => ss.set i ((ss.getD i default).update c.1 c.2 now)
  | none => ss ++ [Seat.new c.1 c.2 now]

/-- Step 2 of `_gestionar_asientos` over all clusters; the seat list grows as
the loop runs, so a later cluster can match a seat created this very tick. -/
def matchSeats (seats : List Seat) (clusters : List (ℚ × ℚ)) (ancho : ℤ)
    (now : ℚ) : List Seat :=
  clusters.foldl (fun ss c => matchCluster ss c ancho now) seats

/-- Step 3's retention test: a CONFIRMED seat survives while its age is below
`SEAT_CONFIRMED_TIMEOUT`, a CANDIDATE seat while its age is below
`SEAT_CANDIDATE_TIMEOUT`. -/
def keepSeat (now : ℚ) (s : Seat) : Bool :=
  if s.is_confirmed then decide (now - s.last_seen_time < SEAT_CONFIRMED_TIMEOUT)
  else decide (now - s.last_seen_time < SEAT_CANDIDATE_TIMEOUT)

/-- `_gestionar_asientos(opp_raw, ancho_img, alto_img)` at time `now`, acting
on the registry `seats`. Returns the new registry, the classifier input
(`some puntos_geom`, or `none` when the zero-area early return fired and
step 4 was skipped), and the returned CONFIRMED-seat count. Step 4 itself
(the table-format classification of `puntos_geom`) is `inferirFormato`
below. -/
def gestionarAsientos (seats : List Seat) (opp : List (ℚ × ℚ × String))
    (ancho alto : ℤ) (now : ℚ) :
    List Seat × Option (List (ℚ × ℚ)) × ℕ :=
  if ancho ≤ 0 ∨ alto ≤ 0 then (seats, none, 0)
  else
    let clusters := buildClusters ancho (sortByX opp)
    let seats1 := matchSeats seats clusters ancho now
    let kept := seats1.filter (keepSeat now)
    let puntos := (kept.filter (fun s => s.is_confirmed)).map
      (fun s => (s.center_x / (ancho : ℚ), s.center_y / (alto : ℚ)))
    (kept, some puntos, (kept.filter (fun s => s.is_confirmed)).length)

/-! ## The stabilization buffer (`_consolidar_buffer`, lines 170-206) -/

/-- A growing cluster of raw detections: member labels, coordinate sums and
member count; the centroid is `(sum_x / count, sum_y / count)`. -/
structure RawCluster where
  labels : List String
  sum_x : ℚ
  sum_y : ℚ
  count : ℕ
deriving DecidableEq

/-- One raw detection against the cluster list: scan the clusters in order and
join the first one whose running centroid is within the 30-pixel grid on both
axes (the source's `abs(cx - dcx) < grid_size and abs(cy - dcy) < grid_size`
followed by `break`); otherwise append a fresh cluster. -/
def addDetection : List RawCluster → ℚ → ℚ → String → List RawCluster
  | [], cx, cy, label => [⟨[label], cx, cy, 1⟩]
  | cl :: rest, cx, cy, label =>
    if |cx - cl.sum_x / cl.count| < 30 ∧ |cy - cl.sum_y / cl.count| < 30 then
      ⟨cl.labels ++ [label], cl.sum_x + cx, cl.sum_y + cy, cl.count + 1⟩ :: rest
    else cl :: addDetection rest cx cy label

/-- The per-region clustering pass of `_consolidar_buffer`: every buffered
item is folded into the cluster list by `addDetection`. -/
def buildBuffer (items : List (ℚ × ℚ × String)) : List RawCluster :=
  items.foldl (fun cs it => addDetection cs it.1 it.2.1 it.2.2) []

/-- `Counter(labels).most_common(1)[0][0]`: the label with the greatest
multiplicity; `Counter` remembers first-insertion order and `most_common`
sorts stably, so ties go to the earliest-seen label. -/
def mostCommon (l : List String) : String :=
  (l.foldl
    (fun (best : Option (String × ℕ)) lab =>
      let c := l.count lab
      match best with
      | none => some (lab, c)
      | some b => if b.2 < c then some (lab, c) else best)
    none).elim "" Prod.fst

/-- The resolution pass of `_consolidar_buffer`: clusters seen at least
`CONFIRMATION_THRESHOLD` times resolve to (mean x, mean y, majority label). -/
def resolveClusters (cs : List RawCluster) : List (ℚ × ℚ × String) :=
  (cs.filter (fun cl => CONFIRMATION_THRESHOLD ≤ cl.count)).map
    (fun cl => (cl.sum_x / cl.count, cl.sum_y / cl.count, mostCommon cl.labels))

/-! ## Hero/board post-processing (`process`, lines 408-426) -/

/-- `hero_raw.sort(key=x[0])`, drop the face-down sentinel, truncate to 2. -/
def heroValid (hero_raw : List (ℚ × ℚ × String)) : List (ℚ × ℚ × String) :=
  let valid := (sortByX hero_raw).filter (fun x => x.2.2 ≠ "card_back")
  if 2 < valid.length then valid.take 2 else valid

/-- `board_raw.sort(key=x[0])`, drop the face-down sentinel, truncate to 5. -/
def boardValid (board_raw : List (ℚ × ℚ × String)) : List (ℚ × ℚ × String) :=
  let valid := (sortByX board_raw).filter (fun x => x.2.2 ≠ "card_back")
  if 5 < valid.length then valid.take 5 else valid

/-- The published hero card labels, `gs["my_cards"]`. -/
def myCards (hero_raw : List (ℚ × ℚ × String)) : List String :=
  (heroValid hero_raw).map (fun x => x.2.2)

/-- The published board card labels, `gs["board"]`. -/
def boardCards (board_raw : List (ℚ × ℚ × String)) : List String :=
  (boardValid board_raw).map (fun x => x.2.2)

/-! ## Opponent grouping (`_agrupar_rivales`, lines 208-250)

Distances here are the source's `math.hypot`, modelled by `Real.sqrt`; the
definitions are therefore real-valued and use classical decidability for the
comparisons. -/

/-- `math.hypot(c1[0]-c2[0], c1[1]-c2[1])` between two items. -/
noncomputable def hypotItems (a b : ℚ × ℚ × String) : ℝ :=
  Real.sqrt ((((a.1 - b.1)^2 + (a.2.1 - b.2.1)^2 : ℚ) : ℝ))

/-- The inner `for j in range(i+1, len(items))` scan: the unused partner
beyond position `i` at minimal distance from `c1`, among those closer than
`ancho * 0.18`; `min_d` starts at infinity, modelled by `none`. -/
noncomputable def buscarPareja (items : List (ℚ × ℚ × String)) (used : List Bool)
    (c1 : ℚ × ℚ × String) (i : ℕ) (ancho : ℤ) : Option ℕ :=
  ((List.range items.length).foldl
    (fun (st : Option ℕ × Option ℝ) j =>
      if j ≤ i then st
      else if used.getD j false then st
      else
        let d := hypotItems c1 (items.getD j default)
        match st.2 with
        | none => if d < (ancho : ℝ) * (18/100) then (some j, some d) else st
        | some m =>
          if d < (ancho : ℝ) * (18/100) ∧ d < m then (some j, some d) else st)
    (none, none)).1

/-- `_agrupar_rivales(items, ancho)`: sort by x, pair each unused card with
its best unused partner, order each pair by x, and duplicate a lone card into
a two-card group (the phantom partner). Returns the published label groups. -/
noncomputable def agruparRivales (items0 : List (ℚ × ℚ × String)) (ancho : ℤ) :
    List (List String) :=
  if items0 = [] then []
  else
    let items := sortByX items0
    ((List.range items.length).foldl
      (fun (st : List Bool × List (List String)) i =>
        if st.1.getD i false then st
        else
          let c1 := items.getD i default
          let used1 := st.1.set i true
          let grupo := match buscarPareja items used1 c1 i ancho with
            | some j => sortByX [c1, items.getD j default]
            | none => [c1]
          let used2 := match buscarPareja items used1 c1 i ancho with
            | some j => used1.set j true
            | none => used1
          let cartas : List String := grupo.map (fun x => x.2.2)
          let cartas2 := if cartas.length = 1 then cartas ++ cartas else cartas
          (used2, st.2 ++ [cartas2]))
      (List.replicate items.length false, [])).2

/-! ## The geometric table-format classifier
(`_inferir_formato_geometrico`, lines 252-294)

`min([math.hypot(px-lx, py-ly) for lx, ly in layout])` is `minDist`; its
rational mirror `minSq` computes the minimum of the squared distances, and
`minDist = Real.sqrt minSq` because the square root is monotone. -/

/-- Squared distance between two normalized points. -/
def sqDist (p q : ℚ × ℚ) : ℚ := (p.1 - q.1)^2 + (p.2 - q.2)^2

/-- `math.hypot(p.1 - q.1, p.2 - q.2)` for normalized points. -/
noncomputable def hypotPt (p q : ℚ × ℚ) : ℝ := Real.sqrt ((sqDist p q : ℚ) : ℝ)

/-- Python's `min` over the nonempty list of hypot distances from `p` to the
layout's points (the layouts are never empty; `[]` is mapped to 0). -/
noncomputable def minDist (p : ℚ × ℚ) : List (ℚ × ℚ) → ℝ
  | [] => 0
  | q :: rest => (rest.map (hypotPt p)).foldl min (hypotPt p q)

/-- Rational mirror of `minDist`: the minimum squared distance. -/
def minSq (p : ℚ × ℚ) : List (ℚ × ℚ) → ℚ
  | [] => 0
  | q :: rest => (rest.map (sqDist p)).foldl min (sqDist p q)

/-- The `(error_layout, matches)` accumulation of the classifier's inner
loop: every test point whose minimum distance to the layout is below the
0.15 tolerance adds that distance to the error and counts as a match. -/
noncomputable def layerStats (pts layout : List (ℚ × ℚ)) : ℝ × ℕ :=
  pts.foldl
    (fun acc p =>
      if minDist p layout < 15/100 then (acc.1 + minDist p layout, acc.2 + 1)
      else acc)
    ((0 : ℝ), (0 : ℕ))

/-- Rational mirror of the matched set: the minimum squared distances of the
test points matched by the layout (tolerance `0.15^2 = 9/400`), in order. -/
def matchedSq (pts layout : List (ℚ × ℚ)) : List ℚ :=
  (pts.filter (fun p => minSq p layout < 9/400)).map (fun p => minSq p layout)

/-- `score = avg_error + unexplained_points_penalty + empty_seats_penalty`
(only evaluated by the source when `matches > 0`). -/
noncomputable def scoreOf (pts layout : List (ℚ × ℚ)) : ℝ :=
  (layerStats pts layout).1 / ((layerStats pts layout).2 : ℝ)
    + ((pts.length : ℝ) - ((layerStats pts layout).2 : ℝ)) * 5
    + ((layout.length : ℝ) - ((layerStats pts layout).2 : ℝ)) * (1/10)

/-- A layout's score on the test points, `none` when it matched nothing and
the source skips it. -/
noncomputable def layoutScore (pts layout : List (ℚ × ℚ)) : Option ℝ :=
  if 0 < (layerStats pts layout).2 then some (scoreOf pts layout) else none

/-- One iteration of the `for nombre, layout in GG_LAYOUTS.items()` loop:
the running state is `(mejor_fit, menor_score)` with `none` standing for the
initial `float('inf')`. -/
noncomputable def classifyStep (pts : List (ℚ × ℚ)) (acc : String × Option ℝ)
    (nl : String × List (ℚ × ℚ)) : String × Option ℝ :=
  match layoutScore pts nl.2 with
  | none => acc
  | some score =>
    match acc.2 with
    | none => (nl.1, some score)
    | some m => if score < m then (nl.1, some score) else acc

/-- The whole layout loop, starting from `("Custom", float('inf'))`. -/
noncomputable def classifyFold (pts : List (ℚ × ℚ)) : String × Option ℝ :=
  GG_LAYOUTS.foldl (classifyStep pts) ("Custom", none)

/-- The hero-presence test: some point lies within 0.1 of (0.50, 0.68) on
both axes. -/
def hasHero (pts : List (ℚ × ℚ)) : Bool :=
  pts.any (fun p => decide (|p.1 - 1/2| < 1/10) && decide (|p.2 - 17/25| < 1/10))

/-- `puntos_test`: the input points, with the hero's fixed position appended
when no point already passes the hero-presence test. -/
def testPoints (pts : List (ℚ × ℚ)) : List (ℚ × ℚ) :=
  if hasHero pts then pts else pts ++ [(1/2, 17/25)]

/-- `_inferir_formato_geometrico(puntos_confirmados)`: empty input returns the
"Detectando..." sentinel at once; otherwise the best-scoring layout's name is
returned unless the winning score exceeds the 3.0 rejection ceiling (an
infinite `menor_score`, i.e. `none`, always exceeds it). -/
noncomputable def inferirFormato (pts : List (ℚ × ℚ)) : String :=
  if pts = [] then "Detectando..."
  else
    match (classifyFold (testPoints pts)).2 with
    | none => "Detectando..."
    | some m => if 3 < m then "Detectando..." else (classifyFold (testPoints pts)).1

/-! ## Crop scaling and clamping (HTP.py, lines 178-190 and 293-331) -/

/-- Python's `int(...)` on a rational value: truncation toward zero. -/
def pythonInt (q : ℚ) : ℤ := if 0 ≤ q then ⌊q⌋ else ⌈q⌉

/-- The orchestrator's scale-then-clamp of an externally supplied crop
rectangle. The scale factors are `CAPTURE_W / MONITOR_W = 1920 / 2560 = 3/4`
and `CAPTURE_H / MONITOR_H = 1080 / 1440 = 3/4`. The clamps are the source's
`sx = max(0, min(sx, w_img - 1))` (same for `sy`) and
`sw = max(1, min(sw, w_img - sx))` (same for `sh`). -/
def scaleCrop (x y w h w_img h_img : ℤ) : ℤ × ℤ × ℤ × ℤ :=
  let sx := pythonInt ((x : ℚ) * (3/4))
  let sy := pythonInt ((y : ℚ) * (3/4))
  let sw := pythonInt ((w : ℚ) * (3/4))
  let sh := pythonInt ((h : ℚ) * (3/4))
  let sx2 := max 0 (min sx (w_img - 1))
  let sy2 := max 0 (min sy (h_img - 1))
  let sw2 := max 1 (min sw (w_img - sx2))
  let sh2 := max 1 (min sh (h_img - sy2))
  (sx2, sy2, sw2, sh2)

/-! ## Table-format writes (detectar_mesa.py lines 115-137,
card_detector_plugin.py lines 473-474) -/

/-- The table-sizer's format decision from the stabilized stack count and
vertical-level count: more than 6 stacks or at least 5 levels means "9-Max",
anything else keeps the "6-Max" default. -/
def tableSizerFormat (final_count final_levels : ℕ) : String :=
  if 6 < final_count then "9-Max" else if 5 ≤ final_levels then "9-Max" else "6-Max"

/-- The card detector's conditional write of `gs["table_format"]`: the
geometric result overwrites the previous value only when it is not the
"Detectando..." sentinel. -/
def applyCardDetectorFormat (prev fmt : String) : String :=
  if fmt ≠ "Detectando..." then fmt else prev

/-- The canonical layout names. -/
def canonicalNames : List String := GG_LAYOUTS.map Prod.fst

/-! ## Generic helpers -/

/-- A fold preserves any invariant its step preserves. -/
theorem foldl_invariant {α σ : Type _} (f : σ → α → σ) (P : σ → Prop)
    (hf : ∀ s a, P s → P (f s a)) : ∀ (l : List α) (s : σ), P s → P (l.foldl f s)
  | [], _, hs => hs
  | _ :: rest, s, hs => foldl_invariant f P hf rest _ (hf s _ hs)

/-! ## Seat lifetime lemmas (claim C1) -/

theorem applyUpdates_count (l : List (ℚ × ℚ × ℚ)) : ∀ s : Seat,
    (s.applyUpdates l).detection_count = s.detection_count + l.length := by
  induction l with
  | nil => intro s; simp [Seat.applyUpdates]
  | cons u rest ih =>
    intro s
    show ((s.update u.1 u.2.1 u.2.2).applyUpdates rest).detection_count = _
    rw [ih]
    simp [Seat.update, List.length_cons]
    omega

theorem applyUpdates_confirmed (l : List (ℚ × ℚ × ℚ)) : ∀ s : Seat,
    s.is_confirmed = decide (SEAT_CREATION_FRAMES ≤ s.detection_count) →
    (s.applyUpdates l).is_confirmed
      = decide (SEAT_CREATION_FRAMES ≤ (s.applyUpdates l).detection_count) := by
  induction l with
  | nil => intro s hs; exact hs
  | cons u rest ih =>
    intro s hs
    show ((s.update u.1 u.2.1 u.2.2).applyUpdates rest).is_confirmed = _
    refine ih _ ?_
    simp only [Seat.update]
    by_cases h : SEAT_CREATION_FRAMES ≤ s.detection_count + 1
    · rw [if_pos h]
      exact (decide_eq_true h).symm
    · rw [if_neg h, hs]
      have h1 : ¬ SEAT_CREATION_FRAMES ≤ s.detection_count := by omega
      rw [decide_eq_false h1, decide_eq_false h]

/-- Claim C1: a seat created by `Seat.__init__` and mutated only by
`Seat.update` is CONFIRMED exactly when its cumulative match count has
reached `SEAT_CREATION_FRAMES = 8`; the count starts at 1 and grows by one
per match, so the CANDIDATE→CONFIRMED transition happens on the very update
whose count reaches 8, happens exactly once, and is never reverted by later
matches (non-matches do not touch the seat at all). -/
theorem c1_seat_confirmation (x y t : ℚ) (l : List (ℚ × ℚ × ℚ)) :
    (((Seat.new x y t).applyUpdates l).is_confirmed
        = decide (SEAT_CREATION_FRAMES
            ≤ ((Seat.new x y t).applyUpdates l).detection_count))
    ∧ ((Seat.new x y t).applyUpdates l).detection_count = 1 + l.length
    ∧ ∀ l' : List (ℚ × ℚ × ℚ),
        ((Seat.new x y t).applyUpdates l).is_confirmed = true →
        ((Seat.new x y t).applyUpdates (l ++ l')).is_confirmed = true := by
  have hbase : (Seat.new x y t).is_confirmed
      = decide (SEAT_CREATION_FRAMES ≤ (Seat.new x y t).detection_count) := by
    simp [Seat.new, SEAT_CREATION_FRAMES]
  have hcount : ∀ l₀ : List (ℚ × ℚ × ℚ),
      ((Seat.new x y t).applyUpdates l₀).detection_count = 1 + l₀.length := by
    intro l₀
    rw [applyUpdates_count]
    simp [Seat.new]
  have hconf : ∀ l₀ : List (ℚ × ℚ × ℚ),
      ((Seat.new x y t).applyUpdates l₀).is_confirmed
        = decide (SEAT_CREATION_FRAMES
            ≤ ((Seat.new x y t).applyUpdates l₀).detection_count) :=
    fun l₀ => applyUpdates_confirmed l₀ _ hbase
  refine ⟨hconf l, hcount l, ?_⟩
  intro l' h
  rw [hconf l, hcount l] at h
  rw [hconf (l ++ l'), hcount (l ++ l')]
  have h8 : SEAT_CREATION_FRAMES ≤ 1 + l.length := of_decide_eq_true h
  have : SEAT_CREATION_FRAMES ≤ 1 + (l ++ l').length := by
    rw [List.length_append]; omega
  exact decide_eq_true this

/-! ## Registry expiry (claims C2 and C5) -/

/-- Claim C2: on an evaluation over a well-formed frame (positive width and
height), after the matching pass (`matchSeats`): every seat kept in the
registry has age below its trust level's timeout; a CANDIDATE seat whose age
exceeds 2 s is removed, a CONFIRMED seat whose age exceeds 300 s is removed,
and a CONFIRMED seat with age below 300 s survives; and every point handed to
the table-format classifier is the normalized position of a kept CONFIRMED
seat, so removed seats never reach the classifier input. -/
theorem c2_registry_expiry (seats : List Seat) (opp : List (ℚ × ℚ × String))
    (ancho alto : ℤ) (now : ℚ) (hw : 0 < ancho) (hh : 0 < alto) :
    (∀ s ∈ (gestionarAsientos seats opp ancho alto now).1,
        (s.is_confirmed = true → now - s.last_seen_time < SEAT_CONFIRMED_TIMEOUT)
        ∧ (s.is_confirmed = false → now - s.last_seen_time < SEAT_CANDIDATE_TIMEOUT))
    ∧ (∀ s ∈ matchSeats seats (buildClusters ancho (sortByX opp)) ancho now,
        (s.is_confirmed = false → SEAT_CANDIDATE_TIMEOUT < now - s.last_seen_time →
          s ∉ (gestionarAsientos seats opp ancho alto now).1)
        ∧ (s.is_confirmed = true → SEAT_CONFIRMED_TIMEOUT < now - s.last_seen_time →
          s ∉ (gestionarAsientos seats opp ancho alto now).1)
        ∧ (s.is_confirmed = true → now - s.last_seen_time < SEAT_CONFIRMED_TIMEOUT →
          s ∈ (gestionarAsientos seats opp ancho alto now).1))
    ∧ (∀ q ∈ (gestionarAsientos seats opp ancho alto now).2.1.getD [],
        ∃ s ∈ (gestionarAsientos seats opp ancho alto now).1,
          s.is_confirmed = true
          ∧ q = (s.center_x / (ancho : ℚ), s.center_y / (alto : ℚ))) := by
  have hcond : ¬(ancho ≤ 0 ∨ alto ≤ 0) := by omega
  have hg : gestionarAsientos seats opp ancho alto now
      = ((matchSeats seats (buildClusters ancho (sortByX opp)) ancho now).filter
          (keepSeat now),
         some ((((matchSeats seats (buildClusters ancho (sortByX opp)) ancho
            now).filter (keepSeat now)).filter (fun s => s.is_confirmed)).map
              (fun s => (s.center_x / (ancho : ℚ), s.center_y / (alto : ℚ)))),
         (((matchSeats seats (buildClusters ancho (sortByX opp)) ancho
            now).filter (keepSeat now)).filter (fun s => s.is_confirmed)).length) := by
    unfold gestionarAsientos
    rw [if_neg hcond]
  rw [hg]
  refine ⟨?_, ?_, ?_⟩
  · intro s hs
    rw [List.mem_filter] at hs
    obtain ⟨_, hk⟩ := hs
    unfold keepSeat at hk
    constructor
    · intro hc; rw [if_pos hc] at hk; exact of_decide_eq_true hk
    · intro hc
      rw [hc] at hk
      simp only [Bool.false_eq_true, if_neg] at hk
      exact of_decide_eq_true hk
  · intro s hs
    refine ⟨?_, ?_, ?_⟩
    · intro hc hage hmem
      rw [List.mem_filter] at hmem
      have hk := hmem.2
      unfold keepSeat at hk
      rw [hc] at hk
      simp only [Bool.false_eq_true, if_neg] at hk
      have := of_decide_eq_true hk
      linarith
    · intro hc hage hmem
      rw [List.mem_filter] at hmem
      have hk := hmem.2
      unfold keepSeat at hk
      rw [if_pos hc] at hk
      have := of_decide_eq_true hk
      linarith
    · intro hc hage
      rw [List.mem_filter]
      refine ⟨hs, ?_⟩
      unfold keepSeat
      rw [if_pos hc]
      exact decide_eq_true hage
  · intro q hq
    simp only [Option.getD_some] at hq
    rcases List.mem_map.mp hq with ⟨s, hs, rfl⟩
    rw [List.mem_filter] at hs
    exact ⟨s, hs.1, hs.2, rfl⟩

/-- Witness for C2 at a concrete registry: a CONFIRMED seat aged 100 s is
kept while a CONFIRMED seat aged 400 s is expired. -/
theorem c2_registry_expiry_witness :
    ((⟨10, 10, 900, 9, true⟩ : Seat)
        ∈ (gestionarAsientos [⟨10, 10, 900, 9, true⟩, ⟨20, 20, 600, 9, true⟩]
            [] 100 100 1000).1)
    ∧ ((⟨20, 20, 600, 9, true⟩ : Seat)
        ∉ (gestionarAsientos [⟨10, 10, 900, 9, true⟩, ⟨20, 20, 600, 9, true⟩]
            [] 100 100 1000).1) := by
  have h := c2_registry_expiry [⟨10, 10, 900, 9, true⟩, ⟨20, 20, 600, 9, true⟩]
    [] 100 100 1000 (by norm_num) (by norm_num)
  exact ⟨(h.2.1 ⟨10, 10, 900, 9, true⟩ (by decide)).2.2 rfl
           (by norm_num [SEAT_CONFIRMED_TIMEOUT]),
         (h.2.1 ⟨20, 20, 600, 9, true⟩ (by decide)).2.1 rfl
           (by norm_num [SEAT_CONFIRMED_TIMEOUT])⟩

/-- Claim C5 (amended): on an empty or zero-area frame the registry evaluation
returns immediately: no matching is attempted, but also no aging or expiry is
applied — the seat list is returned untouched, the classifier input is not
recomputed, and the confirmed count is reported as 0. -/
theorem c5_zero_area_noop (seats : List Seat) (opp : List (ℚ × ℚ × String))
    (ancho alto : ℤ) (now : ℚ) (h : ancho ≤ 0 ∨ alto ≤ 0) :
    gestionarAsientos seats opp ancho alto now = (seats, none, 0) := by
  unfold gestionarAsientos
  rw [if_pos h]

/-- Witness for C5 (amended) at a concrete zero-width frame. -/
theorem c5_zero_area_noop_witness :
    gestionarAsientos [⟨5, 5, 0, 3, false⟩] [] 0 100 10
      = ([⟨5, 5, 0, 3, false⟩], none, 0) :=
  c5_zero_area_noop [⟨5, 5, 0, 3, false⟩] [] 0 100 10 (Or.inl (by norm_num))

/-- Counterexample to C5 as stated: on a zero-width frame, a CANDIDATE seat
whose age (10 s) is far past the 2 s candidate timeout is NOT removed — the
early return skips the aging/expiry pass along with the matching pass, so
the expired seat is still in the registry afterwards. -/
theorem c5_counterexample :
    (gestionarAsientos [⟨5, 5, 0, 3, false⟩] [] 0 100 10).1 = [⟨5, 5, 0, 3, false⟩]
    ∧ SEAT_CANDIDATE_TIMEOUT < 10 - (⟨5, 5, 0, 3, false⟩ : Seat).last_seen_time
    ∧ (⟨5, 5, 0, 3, false⟩ : Seat).is_confirmed = false := by
  refine ⟨?_, by norm_num [SEAT_CANDIDATE_TIMEOUT], rfl⟩
  unfold gestionarAsientos
  norm_num

/-! ## Buffer clustering (claim C6) -/

/-- Claim C6 (amended): during buffer consolidation a raw detection joins the
FIRST cluster, in cluster-creation order, whose running centroid lies within
the 30-pixel grid tolerance on both axes — not the nearest such cluster; when
no cluster is within tolerance it starts a new cluster at the end. -/
theorem c6_first_fit (clusters : List RawCluster) (cx cy : ℚ) (label : String) :
    ((∀ c ∈ clusters,
        ¬(|cx - c.sum_x / c.count| < 30 ∧ |cy - c.sum_y / c.count| < 30)) →
      addDetection clusters cx cy label = clusters ++ [⟨[label], cx, cy, 1⟩])
    ∧ (∀ pre cl post, clusters = pre ++ cl :: post →
        (∀ c ∈ pre,
          ¬(|cx - c.sum_x / c.count| < 30 ∧ |cy - c.sum_y / c.count| < 30)) →
        (|cx - cl.sum_x / cl.count| < 30 ∧ |cy - cl.sum_y / cl.count| < 30) →
        addDetection clusters cx cy label
          = pre ++ ⟨cl.labels ++ [label], cl.sum_x + cx, cl.sum_y + cy,
              cl.count + 1⟩ :: post) := by
  constructor
  · intro hnone
    induction clusters with
    | nil => rfl
    | cons c rest ih =>
      show addDetection (c :: rest) cx cy label = _
      unfold addDetection
      rw [if_neg (hnone c (by simp))]
      rw [ih (fun c' hc' => hnone c' (by simp [hc']))]
      simp
  · intro pre cl post heq hpre hcl
    subst heq
    induction pre with
    | nil =>
      show addDetection (cl :: post) cx cy label = _
      unfold addDetection
      rw [if_pos hcl]
      rfl
    | cons p pre ih =>
      show addDetection (p :: (pre ++ cl :: post)) cx cy label = _
      unfold addDetection
      rw [if_neg (hpre p (by simp))]
      rw [ih (fun c' hc' => hpre c' (by simp [hc']))]
      simp

/-- Counterexample to C6 as stated: with clusters centred at x = 0 and
x = 40, a detection at x = 25 is within the tolerance of both, strictly
nearer to the second (distance 15 versus 25), yet it joins the first. -/
theorem c6_counterexample :
    addDetection [⟨["a"], 0, 0, 1⟩, ⟨["b"], 40, 0, 1⟩] 25 0 "c"
      = [⟨["a", "c"], 25, 0, 2⟩, ⟨["b"], 40, 0, 1⟩]
    ∧ |(25 : ℚ) - 0 / 1| < 30 ∧ |(0 : ℚ) - 0 / 1| < 30
    ∧ |(25 : ℚ) - 40 / 1| < 30 ∧ |(0 : ℚ) - 0 / 1| < 30
    ∧ |(25 : ℚ) - 40 / 1| < |(25 : ℚ) - 0 / 1| := by
  refine ⟨?_, by norm_num, by norm_num, by norm_num, by norm_num, by norm_num⟩
  unfold addDetection
  norm_num

/-! ## Crop clamping (claim C9) -/

/-- Claim C9: for any frame of positive dimensions and any externally
supplied crop rectangle, the scaled-and-clamped rectangle satisfies
0 ≤ sx ≤ w−1, 0 ≤ sy ≤ h−1, 1 ≤ sw ≤ w−sx and 1 ≤ sh ≤ h−sy, so the
subsequent array slice is in range and at least 1×1. -/
theorem c9_crop_bounds (x y w h w_img h_img : ℤ)
    (hw : 1 ≤ w_img) (hh : 1 ≤ h_img) :
    0 ≤ (scaleCrop x y w h w_img h_img).1
    ∧ (scaleCrop x y w h w_img h_img).1 ≤ w_img - 1
    ∧ 0 ≤ (scaleCrop x y w h w_img h_img).2.1
    ∧ (scaleCrop x y w h w_img h_img).2.1 ≤ h_img - 1
    ∧ 1 ≤ (scaleCrop x y w h w_img h_img).2.2.1
    ∧ (scaleCrop x y w h w_img h_img).2.2.1
        ≤ w_img - (scaleCrop x y w h w_img h_img).1
    ∧ 1 ≤ (scaleCrop x y w h w_img h_img).2.2.2
    ∧ (scaleCrop x y w h w_img h_img).2.2.2
        ≤ h_img - (scaleCrop x y w h w_img h_img).2.1 := by
  unfold scaleCrop
  dsimp only
  omega

/-- Witness for C9 at a concrete frame and crop rectangle. -/
theorem c9_crop_bounds_witness :
    0 ≤ (scaleCrop 100 200 3000 4000 1920 1080).1
    ∧ (scaleCrop 100 200 3000 4000 1920 1080).1 ≤ 1920 - 1
    ∧ 0 ≤ (scaleCrop 100 200 3000 4000 1920 1080).2.1
    ∧ (scaleCrop 100 200 3000 4000 1920 1080).2.1 ≤ 1080 - 1
    ∧ 1 ≤ (scaleCrop 100 200 3000 4000 1920 1080).2.2.1
    ∧ (scaleCrop 100 200 3000 4000 1920 1080).2.2.1
        ≤ 1920 - (scaleCrop 100 200 3000 4000 1920 1080).1
    ∧ 1 ≤ (scaleCrop 100 200 3000 4000 1920 1080).2.2.2
    ∧ (scaleCrop 100 200 3000 4000 1920 1080).2.2.2
        ≤ 1080 - (scaleCrop 100 200 3000 4000 1920 1080).2.1 :=
  c9_crop_bounds 100 200 3000 4000 1920 1080 (by norm_num) (by norm_num)

/-! ## Published observation well-formedness (claim C4) -/

theorem validFilter_sorted (raw : List (ℚ × ℚ × String)) :
    List.Pairwise leX ((sortByX raw).filter (fun x => x.2.2 ≠ "card_back")) := by
  have hsorted : List.Pairwise leX (sortByX raw) :=
    List.sorted_insertionSort leX raw
  exact List.Pairwise.sublist (List.filter_sublist _) hsorted

/-- Claim C4: every published stabilized observation is well-formed — the
hero list has at most 2 entries, the board list at most 5, neither contains
the face-down sentinel, both are ordered by ascending horizontal position,
and every opponent group produced by `_agrupar_rivales` (after the phantom
partner fill) has exactly 2 entries. -/
theorem c4_wellformed (hero_raw board_raw opp_raw : List (ℚ × ℚ × String))
    (ancho : ℤ) :
    (myCards hero_raw).length ≤ 2
    ∧ "card_back" ∉ myCards hero_raw
    ∧ List.Pairwise leX (heroValid hero_raw)
    ∧ (boardCards board_raw).length ≤ 5
    ∧ "card_back" ∉ boardCards board_raw
    ∧ List.Pairwise leX (boardValid board_raw)
    ∧ ∀ g ∈ agruparRivales opp_raw ancho, g.length = 2 := by
  have hmemHero : ∀ lab ∈ myCards hero_raw, lab ≠ "card_back" := by
    intro lab hl
    rcases List.mem_map.mp hl with ⟨it, hit, rfl⟩
    unfold heroValid at hit
    by_cases hc : 2 < ((sortByX hero_raw).filter (fun x => x.2.2 ≠ "card_back")).length
    · rw [if_pos hc] at hit
      have := (List.take_sublist _ _).mem hit
      exact of_decide_eq_true (List.mem_filter.mp this).2
    · rw [if_neg hc] at hit
      exact of_decide_eq_true (List.mem_filter.mp hit).2
  have hmemBoard : ∀ lab ∈ boardCards board_raw, lab ≠ "card_back" := by
    intro lab hl
    rcases List.mem_map.mp hl with ⟨it, hit, rfl⟩
    unfold boardValid at hit
    by_cases hc : 5 < ((sortByX board_raw).filter (fun x => x.2.2 ≠ "card_back")).length
    · rw [if_pos hc] at hit
      have := (List.take_sublist _ _).mem hit
      exact of_decide_eq_true (List.mem_filter.mp this).2
    · rw [if_neg hc] at hit
      exact of_decide_eq_true (List.mem_filter.mp hit).2
  refine ⟨?_, ?_, ?_, ?_, ?_, ?_, ?_⟩
  · unfold myCards heroValid
    rw [List.length_map]
    by_cases hc : 2 < ((sortByX hero_raw).filter (fun x => x.2.2 ≠ "card_back")).length
    · rw [if_pos hc]; exact List.length_take_le 2 _
    · rw [if_neg hc]; omega
  · intro hmem; exact hmemHero "card_back" hmem rfl
  · unfold heroValid
    by_cases hc : 2 < ((sortByX hero_raw).filter (fun x => x.2.2 ≠ "card_back")).length
    · rw [if_pos hc]
      exact List.Pairwise.sublist (List.take_sublist _ _) (validFilter_sorted hero_raw)
    · rw [if_neg hc]; exact validFilter_sorted hero_raw
  · unfold boardCards boardValid
    rw [List.length_map]
    by_cases hc : 5 < ((sortByX board_raw).filter (fun x => x.2.2 ≠ "card_back")).length
    · rw [if_pos hc]; exact List.length_take_le 5 _
    · rw [if_neg hc]; omega
  · intro hmem; exact hmemBoard "card_back" hmem rfl
  · unfold boardValid
    by_cases hc : 5 < ((sortByX board_raw).filter (fun x => x.2.2 ≠ "card_back")).length
    · rw [if_pos hc]
      exact List.Pairwise.sublist (List.take_sublist _ _) (validFilter_sorted board_raw)
    · rw [if_neg hc]; exact validFilter_sorted board_raw
  · intro g hg
    unfold agruparRivales at hg
    by_cases he : opp_raw = []
    · rw [if_pos he] at hg; simp at hg
    · rw [if_neg he] at hg
      revert hg
      have hinv : ∀ g' ∈ ((List.range (sortByX opp_raw).length).foldl
          (fun (st : List Bool × List (List String)) i =>
            if st.1.getD i false then st
            else
              let c1 := (sortByX opp_raw).getD i default
              let used1 := st.1.set i true
              let grupo := match buscarPareja (sortByX opp_raw) used1 c1 i ancho with
                | some j => sortByX [c1, (sortByX opp_raw).getD j default]
                | none => [c1]
              let used2 := match buscarPareja (sortByX opp_raw) used1 c1 i ancho with
                | some j => used1.set j true
                | none => used1
              let cartas : List String := grupo.map (fun x => x.2.2)
              let cartas2 := if cartas.length = 1 then cartas ++ cartas else cartas
              (used2, st.2 ++ [cartas2]))
          (List.replicate (sortByX opp_raw).length false, [])).2, g'.length = 2 := by
        refine foldl_invariant _
          (fun st : List Bool × List (List String) => ∀ g' ∈ st.2, g'.length = 2)
          ?_ _ _ ?_
        · intro st i hP
          by_cases hu : st.1.getD i false
          · rw [if_pos hu]; exact hP
          · rw [if_neg hu]
            intro g' hg'
            simp only [List.mem_append, List.mem_singleton] at hg'
            rcases hg' with hg' | hg'
            · exact hP g' hg'
            · subst hg'
              cases hb : buscarPareja (sortByX opp_raw) ((st.1).set i true)
                  ((sortByX opp_raw).getD i default) i ancho with
              | some j =>
                simp only [hb]
                have hlen : (sortByX [(sortByX opp_raw).getD i default,
                    (sortByX opp_raw).getD j default]).length = 2 := by
                  unfold sortByX
                  rw [(List.perm_insertionSort leX _).length_eq]
                  rfl
                rw [if_neg]
                · rw [List.length_map, hlen]
                · rw [List.length_map, hlen]; omega
              | none =>
                simp only [hb]
                simp
        · intro g' hg'; simp at hg'
      intro hg
      exact hinv g hg

/-! ## Classifier: square-root bridging lemmas -/

theorem sqrt_mono : Monotone Real.sqrt := fun _ _ h => Real.sqrt_le_sqrt h

theorem foldl_min_sqrt (xs : List ℚ) (a : ℚ) :
    (xs.map (fun x : ℚ => Real.sqrt (x : ℝ))).foldl min (Real.sqrt (a : ℝ))
      = Real.sqrt ((xs.foldl min a : ℚ) : ℝ) := by
  induction xs generalizing a with
  | nil => rfl
  | cons x xs ih =>
    simp only [List.map_cons, List.foldl_cons]
    have hmin : min (Real.sqrt (a : ℝ)) (Real.sqrt (x : ℝ))
        = Real.sqrt ((min a x : ℚ) : ℝ) := by
      rw [Rat.cast_min]
      exact (sqrt_mono.map_min).symm
    rw [hmin]
    exact ih (min a x)

theorem minDist_eq (p : ℚ × ℚ) (l : List (ℚ × ℚ)) :
    minDist p l = Real.sqrt ((minSq p l : ℚ) : ℝ) := by
  cases l with
  | nil => simp [minDist, minSq]
  | cons q rest =>
    show (rest.map (hypotPt p)).foldl min (hypotPt p q) = _
    have hmap : rest.map (hypotPt p)
        = (rest.map (sqDist p)).map (fun x : ℚ => Real.sqrt (x : ℝ)) := by
      rw [List.map_map]
      rfl
    rw [hmap]
    exact foldl_min_sqrt (rest.map (sqDist p)) (sqDist p q)

theorem matched_iff (p : ℚ × ℚ) (layout : List (ℚ × ℚ)) :
    minDist p layout < 15/100 ↔ minSq p layout < 9/400 := by
  rw [minDist_eq]
  rw [Real.sqrt_lt' (by norm_num : (0:ℝ) < 15/100)]
  rw [show ((15:ℝ)/100)^2 = ((9/400 : ℚ) : ℝ) by push_cast; norm_num]
  exact Rat.cast_lt

theorem layerStats_eq (pts layout : List (ℚ × ℚ)) :
    layerStats pts layout
      = (((matchedSq pts layout).map (fun q : ℚ => Real.sqrt (q : ℝ))).sum,
         (matchedSq pts layout).length) := by
  have go : ∀ (rest : List (ℚ × ℚ)) (e : ℝ) (m : ℕ),
      rest.foldl
        (fun acc p =>
          if minDist p layout < 15/100 then (acc.1 + minDist p layout, acc.2 + 1)
          else acc)
        (e, m)
      = (e + ((matchedSq rest layout).map (fun q : ℚ => Real.sqrt (q : ℝ))).sum,
         m + (matchedSq rest layout).length) := by
    intro rest
    induction rest with
    | nil => intro e m; simp [matchedSq]
    | cons p rst ih =>
      intro e m
      rw [List.foldl_cons]
      by_cases h : minSq p layout < 9/400
      · rw [if_pos ((matched_iff p layout).mpr h)]
        rw [ih]
        have hms : matchedSq (p :: rst) layout
            = minSq p layout :: matchedSq rst layout := by
          simp [matchedSq, List.filter_cons, h]
        rw [hms, minDist_eq]
        simp only [List.map_cons, List.sum_cons, List.length_cons, Prod.mk.injEq]
        constructor
        · ring
        · omega
      · rw [if_neg (fun hc => h ((matched_iff p layout).mp hc))]
        rw [ih]
        have hms : matchedSq (p :: rst) layout = matchedSq rst layout := by
          simp [matchedSq, List.filter_cons, h]
        rw [hms]
  have := go pts 0 0
  unfold layerStats
  rw [this]
  simp

/-! ## Classifier: score evaluation helpers -/

theorem layoutScore_defined (pts layout : List (ℚ × ℚ))
    (hm : 0 < (matchedSq pts layout).length) :
    layoutScore pts layout = some (scoreOf pts layout) := by
  unfold layoutScore
  rw [if_pos]
  rw [layerStats_eq]
  exact hm

theorem sum_sqrt_nonneg (l : List ℚ) :
    0 ≤ (l.map (fun q : ℚ => Real.sqrt (q : ℝ))).sum := by
  refine List.sum_nonneg ?_
  intro x hx
  rcases List.mem_map.mp hx with ⟨q, _, rfl⟩
  exact Real.sqrt_nonneg _

theorem scoreOf_ge_pen (pts layout : List (ℚ × ℚ)) (m : ℕ) (pen : ℝ)
    (hlen : (matchedSq pts layout).length = m) (_hm : 0 < m)
    (hpen : ((pts.length : ℝ) - (m : ℝ)) * 5
        + ((layout.length : ℝ) - (m : ℝ)) * (1/10) = pen) :
    pen ≤ scoreOf pts layout := by
  unfold scoreOf
  rw [layerStats_eq]
  dsimp only
  rw [hlen]
  have hS := sum_sqrt_nonneg (matchedSq pts layout)
  have hdiv : (0:ℝ)
      ≤ ((matchedSq pts layout).map (fun q : ℚ => Real.sqrt (q : ℝ))).sum / (m : ℝ) :=
    div_nonneg hS (Nat.cast_nonneg m)
  rw [← hpen]
  linarith

/-- A layout all of whose matched distances are zero scores exactly the
penalty value `v`. -/
theorem layoutScore_eval_zeroE (pts layout : List (ℚ × ℚ)) (m : ℕ) (v : ℝ)
    (hms : matchedSq pts layout = List.replicate m 0) (hm : 0 < m)
    (hv : ((pts.length : ℝ) - (m : ℝ)) * 5
        + ((layout.length : ℝ) - (m : ℝ)) * (1/10) = v) :
    layoutScore pts layout = some v := by
  have hlen : (matchedSq pts layout).length = m := by rw [hms]; simp
  rw [layoutScore_defined pts layout (by omega)]
  congr 1
  unfold scoreOf
  rw [layerStats_eq]
  dsimp only
  rw [hlen, hms]
  have hsum : ((List.replicate m (0:ℚ)).map
      (fun q : ℚ => Real.sqrt (q : ℝ))).sum = 0 := by
    simp
  rw [hsum, ← hv]
  simp

/-! ## Classifier: properties of the layout fold -/

theorem classifyFold_def (pts : List (ℚ × ℚ)) :
    classifyFold pts = GG_LAYOUTS.foldl (classifyStep pts) ("Custom", none) := rfl

theorem classifyStep_none (pts : List (ℚ × ℚ)) (acc : String × Option ℝ)
    (nl : String × List (ℚ × ℚ)) (h : layoutScore pts nl.2 = none) :
    classifyStep pts acc nl = acc := by
  unfold classifyStep
  rw [h]

theorem classifyStep_some_inf (pts : List (ℚ × ℚ)) (acc : String × Option ℝ)
    (nl : String × List (ℚ × ℚ)) (s : ℝ)
    (h : layoutScore pts nl.2 = some s) (hacc : acc.2 = none) :
    classifyStep pts acc nl = (nl.1, some s) := by
  obtain ⟨b, o⟩ := acc
  simp only at hacc
  subst hacc
  unfold classifyStep
  rw [h]

theorem classifyStep_some_min (pts : List (ℚ × ℚ)) (acc : String × Option ℝ)
    (nl : String × List (ℚ × ℚ)) (s m : ℝ)
    (h : layoutScore pts nl.2 = some s) (hacc : acc.2 = some m) :
    classifyStep pts acc nl = if s < m then (nl.1, some s) else acc := by
  obtain ⟨b, o⟩ := acc
  simp only at hacc
  subst hacc
  unfold classifyStep
  rw [h]

/-- Once the running minimum is at or below every remaining defined score,
the fold no longer changes state. -/
theorem foldl_keep (pts : List (ℚ × ℚ)) (L : List (String × List (ℚ × ℚ)))
    (n : String) (m : ℝ)
    (h : ∀ nl ∈ L, ∀ s, layoutScore pts nl.2 = some s → m ≤ s) :
    L.foldl (classifyStep pts) (n, some m) = (n, some m) := by
  induction L with
  | nil => rfl
  | cons nl rest ih =>
    rw [List.foldl_cons]
    have hstep : classifyStep pts (n, some m) nl = (n, some m) := by
      cases hsc : layoutScore pts nl.2 with
      | none => exact classifyStep_none pts _ nl hsc
      | some s =>
        rw [classifyStep_some_min pts _ nl s m hsc rfl]
        exact if_neg (not_lt.mpr (h nl (by simp) s hsc))
    rw [hstep]
    exact ih (fun nl' h' s hs => h nl' (by simp [h']) s hs)

/-- While every processed layout's defined score stays strictly above `sA`,
the running minimum stays above `sA` (or undefined). -/
theorem foldl_prefix (pts : List (ℚ × ℚ)) (L : List (String × List (ℚ × ℚ)))
    (sA : ℝ) :
    ∀ acc : String × Option ℝ,
    (acc.2 = none ∨ ∃ m, acc.2 = some m ∧ sA < m) →
    (∀ nl ∈ L, layoutScore pts nl.2 = none
        ∨ ∃ s, layoutScore pts nl.2 = some s ∧ sA < s) →
    ((L.foldl (classifyStep pts) acc).2 = none
        ∨ ∃ m, (L.foldl (classifyStep pts) acc).2 = some m ∧ sA < m) := by
  induction L with
  | nil => intro acc hacc _; exact hacc
  | cons nl rest ih =>
    intro acc hacc hL
    rw [List.foldl_cons]
    refine ih _ ?_ (fun nl' h' => hL nl' (by simp [h']))
    rcases hL nl (by simp) with hnone | ⟨s, hs, hlt⟩
    · rw [classifyStep_none pts acc nl hnone]; exact hacc
    · rcases hacc with h0 | ⟨m, hm, hmlt⟩
      · rw [classifyStep_some_inf pts acc nl s hs h0]
        exact Or.inr ⟨s, rfl, hlt⟩
      · rw [classifyStep_some_min pts acc nl s m hs hm]
        by_cases hc : s < m
        · rw [if_pos hc]; exact Or.inr ⟨s, rfl, hlt⟩
        · rw [if_neg hc]; exact Or.inr ⟨m, hm, hmlt⟩

/-- The fold returns the first layout attaining the minimum: if every layout
before `A` scores strictly above `sA` (or is skipped), `A` scores `sA`, and
every layout after `A` scores at least `sA` (or is skipped), the result is
`(A's name, sA)`. -/
theorem classifyFold_argmin (pts : List (ℚ × ℚ))
    (L1 L2 : List (String × List (ℚ × ℚ))) (A : String × List (ℚ × ℚ)) (sA : ℝ)
    (hGG : GG_LAYOUTS = L1 ++ A :: L2)
    (hA : layoutScore pts A.2 = some sA)
    (h1 : ∀ nl ∈ L1, layoutScore pts nl.2 = none
        ∨ ∃ s, layoutScore pts nl.2 = some s ∧ sA < s)
    (h2 : ∀ nl ∈ L2, ∀ s, layoutScore pts nl.2 = some s → sA ≤ s) :
    classifyFold pts = (A.1, some sA) := by
  rw [classifyFold_def, hGG, List.foldl_append, List.foldl_cons]
  have hpre := foldl_prefix pts L1 sA ("Custom", none) (Or.inl rfl) h1
  have hstepA : classifyStep pts (L1.foldl (classifyStep pts) ("Custom", none)) A
      = (A.1, some sA) := by
    rcases hpre with h0 | ⟨m, hm, hmlt⟩
    · exact classifyStep_some_inf pts _ A sA hA h0
    · rw [classifyStep_some_min pts _ A sA m hA hm]
      exact if_pos hmlt
  rw [hstepA]
  exact foldl_keep pts L2 A.1 sA h2

/-- The running minimum never increases along the fold. -/
theorem foldl_menor_mono (pts : List (ℚ × ℚ)) (L : List (String × List (ℚ × ℚ))) :
    ∀ (b : String) (m : ℝ),
    ∃ m', (L.foldl (classifyStep pts) (b, some m)).2 = some m' ∧ m' ≤ m := by
  induction L with
  | nil => intro b m; exact ⟨m, rfl, le_refl m⟩
  | cons nl rest ih =>
    intro b m
    rw [List.foldl_cons]
    cases hsc : layoutScore pts nl.2 with
    | none =>
      rw [classifyStep_none pts _ nl hsc]
      exact ih b m
    | some s =>
      rw [classifyStep_some_min pts _ nl s m hsc rfl]
      by_cases hc : s < m
      · rw [if_pos hc]
        obtain ⟨m', hm', hle⟩ := ih nl.1 s
        exact ⟨m', hm', le_trans hle (le_of_lt hc)⟩
      · rw [if_neg hc]
        exact ih b m

/-- The final running minimum is at or below every defined score. -/
theorem foldl_le_defined (pts : List (ℚ × ℚ)) (L : List (String × List (ℚ × ℚ))) :
    ∀ (acc : String × Option ℝ) (nl0 : String × List (ℚ × ℚ)), nl0 ∈ L →
    ∀ s0, layoutScore pts nl0.2 = some s0 →
    ∃ m, (L.foldl (classifyStep pts) acc).2 = some m ∧ m ≤ s0 := by
  induction L with
  | nil => intro _ _ h; simp at h
  | cons nl rest ih =>
    intro acc nl0 hmem s0 hs0
    rw [List.foldl_cons]
    rcases List.mem_cons.mp hmem with rfl | hmem'
    · rcases hacc : acc.2 with _ | m
      · rw [classifyStep_some_inf pts acc nl0 s0 hs0 hacc]
        exact foldl_menor_mono pts rest nl0.1 s0
      · rw [classifyStep_some_min pts acc nl0 s0 m hs0 hacc]
        by_cases hc : s0 < m
        · rw [if_pos hc]
          exact foldl_menor_mono pts rest nl0.1 s0
        · rw [if_neg hc]
          have acc_eta : acc = (acc.1, some m) := by
            rw [← hacc]
          rw [acc_eta]
          obtain ⟨m', hm', hle⟩ := foldl_menor_mono pts rest acc.1 m
          exact ⟨m', hm', le_trans hle (not_lt.mp hc)⟩
    · exact ih _ nl0 hmem' s0 hs0

/-- The final running minimum, when defined, is a score some processed
layout achieved. -/
theorem foldl_achieved (pts : List (ℚ × ℚ)) (L : List (String × List (ℚ × ℚ))) :
    ∀ (acc : String × Option ℝ) (m : ℝ),
    (L.foldl (classifyStep pts) acc).2 = some m →
    acc.2 = some m ∨ ∃ nl ∈ L, layoutScore pts nl.2 = some m := by
  induction L with
  | nil => intro acc m h; exact Or.inl h
  | cons nl rest ih =>
    intro acc m h
    rw [List.foldl_cons] at h
    rcases ih _ m h with hacc' | ⟨nl', hmem, hsc'⟩
    · cases hsc : layoutScore pts nl.2 with
      | none =>
        rw [classifyStep_none pts acc nl hsc] at hacc'
        exact Or.inl hacc'
      | some s =>
        rcases heq : acc.2 with _ | m0
        · rw [classifyStep_some_inf pts acc nl s hsc heq] at hacc'
          simp only at hacc'
          rw [Option.some_inj] at hacc'
          exact Or.inr ⟨nl, by simp, by rw [hsc, hacc']⟩
        · rw [classifyStep_some_min pts acc nl s m0 hsc heq] at hacc'
          by_cases hc : s < m0
          · rw [if_pos hc] at hacc'
            simp only at hacc'
            rw [Option.some_inj] at hacc'
            exact Or.inr ⟨nl, by simp, by rw [hsc, hacc']⟩
          · rw [if_neg hc] at hacc'
            exact Or.inl (heq.symm.trans hacc')
    · exact Or.inr ⟨nl', by simp [hmem], hsc'⟩

/-- Whenever the final state has a defined minimum, the reported name is one
of the processed layouts' names. -/
theorem foldl_name_mem (pts : List (ℚ × ℚ)) (L : List (String × List (ℚ × ℚ)))
    (S : List String) :
    ∀ acc : String × Option ℝ,
    (∀ nl ∈ L, nl.1 ∈ S) →
    ((acc.2 ≠ none → acc.1 ∈ S)) →
    ((L.foldl (classifyStep pts) acc).2 ≠ none
      → (L.foldl (classifyStep pts) acc).1 ∈ S) := by
  induction L with
  | nil => intro acc _ hacc; exact hacc
  | cons nl rest ih =>
    intro acc hL hacc
    rw [List.foldl_cons]
    refine ih _ (fun nl' h' => hL nl' (by simp [h'])) ?_
    cases hsc : layoutScore pts nl.2 with
    | none =>
      rw [classifyStep_none pts acc nl hsc]
      exact hacc
    | some s =>
      rcases heq : acc.2 with _ | m0
      · rw [classifyStep_some_inf pts acc nl s hsc heq]
        intro _; exact hL nl (by simp)
      · rw [classifyStep_some_min pts acc nl s m0 hsc heq]
        by_cases hc : s < m0
        · rw [if_pos hc]
          intro _; exact hL nl (by simp)
        · rw [if_neg hc]
          exact hacc

/-! ## Classifier: dispatch helpers for concrete score comparisons -/

theorem layoutScore_above (pts layout : List (ℚ × ℚ)) (m : ℕ) (pen sA : ℝ)
    (hlen : (matchedSq pts layout).length = m) (hm : 0 < m)
    (hpen : ((pts.length : ℝ) - (m : ℝ)) * 5
        + ((layout.length : ℝ) - (m : ℝ)) * (1/10) = pen)
    (hlt : sA < pen) :
    layoutScore pts layout = none
      ∨ ∃ s, layoutScore pts layout = some s ∧ sA < s :=
  Or.inr ⟨scoreOf pts layout, layoutScore_defined pts layout (hlen ▸ hm),
    lt_of_lt_of_le hlt (scoreOf_ge_pen pts layout m pen hlen hm hpen)⟩

theorem layoutScore_atleast (pts layout : List (ℚ × ℚ)) (m : ℕ) (pen sA : ℝ)
    (hlen : (matchedSq pts layout).length = m) (hm : 0 < m)
    (hpen : ((pts.length : ℝ) - (m : ℝ)) * 5
        + ((layout.length : ℝ) - (m : ℝ)) * (1/10) = pen)
    (hle : sA ≤ pen) :
    ∀ s, layoutScore pts layout = some s → sA ≤ s := by
  intro s hs
  rw [layoutScore_defined pts layout (hlen ▸ hm)] at hs
  obtain rfl := (Option.some_inj.mp hs).symm
  exact le_trans hle (scoreOf_ge_pen pts layout m pen hlen hm hpen)

theorem inferirFormato_of_fold (pts : List (ℚ × ℚ)) (name : String) (m : ℝ)
    (hne : pts ≠ []) (hfold : classifyFold (testPoints pts) = (name, some m))
    (hm : ¬ 3 < m) :
    inferirFormato pts = name := by
  unfold inferirFormato
  rw [if_neg hne, hfold]
  show (if 3 < m then "Detectando..." else name) = name
  exact if_neg hm

theorem inferirFormato_sentinel_of_fold (pts : List (ℚ × ℚ)) (name : String)
    (m : ℝ) (hne : pts ≠ [])
    (hfold : classifyFold (testPoints pts) = (name, some m)) (hm : 3 < m) :
    inferirFormato pts = "Detectando..." := by
  unfold inferirFormato
  rw [if_neg hne, hfold]
  show (if 3 < m then "Detectando..." else name) = "Detectando..."
  exact if_pos hm

theorem len_l3 : layout3Max.length = 3 := rfl

theorem len_l4 : layout4Max.length = 4 := rfl

theorem len_l5 : layout5Max.length = 5 := rfl

theorem len_l6 : layout6Max.length = 7 := rfl

theorem len_l8 : layout8Max.length = 9 := rfl

theorem len_l9 : layout9Max.length = 9 := rfl

/-! ## Round trips of the classifier on the canonical layouts (claim C3)

The `matchedSq` evaluations below are rational-arithmetic computations,
discharged by `norm_num` after unfolding the definitions. -/

theorem tp_l3 : testPoints layout3Max = layout3Max := by
  norm_num [testPoints, hasHero, layout3Max]

theorem tp_l4 : testPoints layout4Max = layout4Max := by
  norm_num [testPoints, hasHero, layout4Max]

theorem tp_l5 : testPoints layout5Max = layout5Max := by
  norm_num [testPoints, hasHero, layout5Max]

theorem tp_l6 : testPoints layout6Max = layout6Max := by
  norm_num [testPoints, hasHero, layout6Max]

theorem tp_l8 : testPoints layout8Max = layout8Max := by
  norm_num [testPoints, hasHero, layout8Max]

theorem tp_l9 : testPoints layout9Max = layout9Max := by
  norm_num [testPoints, hasHero, layout9Max]

theorem roundtrip_l3 : inferirFormato layout3Max = "3-Max" := by
  have hA : layoutScore layout3Max layout3Max = some 0 :=
    layoutScore_eval_zeroE layout3Max layout3Max 3 0
      (by norm_num [matchedSq, minSq, sqDist, min_def, List.filter,
        List.replicate, layout3Max])
      (by norm_num) (by rw [len_l3]; norm_num)
  have hfold : classifyFold layout3Max = ("3-Max", some 0) := by
    refine classifyFold_argmin layout3Max []
      [("4-Max", layout4Max), ("5-Max", layout5Max), ("6-Max", layout6Max),
       ("8-Max", layout8Max), ("9-Max", layout9Max)]
      ("3-Max", layout3Max) 0 rfl hA (by intro nl hnl; simp at hnl) ?_
    intro nl hnl
    fin_cases hnl
    · exact layoutScore_atleast layout3Max layout4Max 3 (1/10) 0
        (by norm_num [matchedSq, minSq, sqDist, min_def, List.filter,
          layout3Max, layout4Max])
        (by norm_num) (by rw [len_l3, len_l4]; norm_num) (by norm_num)
    · exact layoutScore_atleast layout3Max layout5Max 3 (1/5) 0
        (by norm_num [matchedSq, minSq, sqDist, min_def, List.filter,
          layout3Max, layout5Max])
        (by norm_num) (by rw [len_l3, len_l5]; norm_num) (by norm_num)
    · exact layoutScore_atleast layout3Max layout6Max 3 (2/5) 0
        (by norm_num [matchedSq, minSq, sqDist, min_def, List.filter,
          layout3Max, layout6Max])
        (by norm_num) (by rw [len_l3, len_l6]; norm_num) (by norm_num)
    · exact layoutScore_atleast layout3Max layout8Max 3 (3/5) 0
        (by norm_num [matchedSq, minSq, sqDist, min_def, List.filter,
          layout3Max, layout8Max])
        (by norm_num) (by rw [len_l3, len_l8]; norm_num) (by norm_num)
    · exact layoutScore_atleast layout3Max layout9Max 3 (3/5) 0
        (by norm_num [matchedSq, minSq, sqDist, min_def, List.filter,
          layout3Max, layout9Max])
        (by norm_num) (by rw [len_l3, len_l9]; norm_num) (by norm_num)
  exact inferirFormato_of_fold layout3Max "3-Max" 0 (by simp [layout3Max])
    (by rw [tp_l3]; exact hfold) (by norm_num)

theorem roundtrip_l4 : inferirFormato layout4Max = "4-Max" := by
  have hA : layoutScore layout4Max layout4Max = some 0 :=
    layoutScore_eval_zeroE layout4Max layout4Max 4 0
      (by norm_num [matchedSq, minSq, sqDist, min_def, List.filter,
        List.replicate, layout4Max])
      (by norm_num) (by rw [len_l4]; norm_num)
  have hfold : classifyFold layout4Max = ("4-Max", some 0) := by
    refine classifyFold_argmin layout4Max [("3-Max", layout3Max)]
      [("5-Max", layout5Max), ("6-Max", layout6Max),
       ("8-Max", layout8Max), ("9-Max", layout9Max)]
      ("4-Max", layout4Max) 0 rfl hA ?_ ?_
    · intro nl hnl
      fin_cases hnl
      exact layoutScore_above layout4Max layout3Max 3 5 0
        (by norm_num [matchedSq, minSq, sqDist, min_def, List.filter,
          layout4Max, layout3Max])
        (by norm_num) (by rw [len_l4, len_l3]; norm_num) (by norm_num)
    · intro nl hnl
      fin_cases hnl
      · exact layoutScore_atleast layout4Max layout5Max 3 (26/5) 0
          (by norm_num [matchedSq, minSq, sqDist, min_def, List.filter,
            layout4Max, layout5Max])
          (by norm_num) (by rw [len_l4, len_l5]; norm_num) (by norm_num)
      · exact layoutScore_atleast layout4Max layout6Max 3 (27/5) 0
          (by norm_num [matchedSq, minSq, sqDist, min_def, List.filter,
            layout4Max, layout6Max])
          (by norm_num) (by rw [len_l4, len_l6]; norm_num) (by norm_num)
      · exact layoutScore_atleast layout4Max layout8Max 4 (1/2) 0
          (by norm_num [matchedSq, minSq, sqDist, min_def, List.filter,
            layout4Max, layout8Max])
          (by norm_num) (by rw [len_l4, len_l8]; norm_num) (by norm_num)
      · exact layoutScore_atleast layout4Max layout9Max 3 (28/5) 0
          (by norm_num [matchedSq, minSq, sqDist, min_def, List.filter,
            layout4Max, layout9Max])
          (by norm_num) (by rw [len_l4, len_l9]; norm_num) (by norm_num)
  exact inferirFormato_of_fold layout4Max "4-Max" 0 (by simp [layout4Max])
    (by rw [tp_l4]; exact hfold) (by norm_num)

theorem roundtrip_l5 : inferirFormato layout5Max = "5-Max" := by
  have hA : layoutScore layout5Max layout5Max = some 0 :=
    layoutScore_eval_zeroE layout5Max layout5Max 5 0
      (by norm_num [matchedSq, minSq, sqDist, min_def, List.filter,
        List.replicate, layout5Max])
      (by norm_num) (by rw [len_l5]; norm_num)
  have hfold : classifyFold layout5Max = ("5-Max", some 0) := by
    refine classifyFold_argmin layout5Max
      [("3-Max", layout3Max), ("4-Max", layout4Max)]
      [("6-Max", layout6Max), ("8-Max", layout8Max), ("9-Max", layout9Max)]
      ("5-Max", layout5Max) 0 rfl hA ?_ ?_
    · intro nl hnl
      fin_cases hnl
      · exact layoutScore_above layout5Max layout3Max 3 10 0
          (by norm_num [matchedSq, minSq, sqDist, min_def, List.filter,
            layout5Max, layout3Max])
          (by norm_num) (by rw [len_l5, len_l3]; norm_num) (by norm_num)
      · exact layoutScore_above layout5Max layout4Max 3 (101/10) 0
          (by norm_num [matchedSq, minSq, sqDist, min_def, List.filter,
            layout5Max, layout4Max])
          (by norm_num) (by rw [len_l5, len_l4]; norm_num) (by norm_num)
    · intro nl hnl
      fin_cases hnl
      · exact layoutScore_atleast layout5Max layout6Max 3 (52/5) 0
          (by norm_num [matchedSq, minSq, sqDist, min_def, List.filter,
            layout5Max, layout6Max])
          (by norm_num) (by rw [len_l5, len_l6]; norm_num) (by norm_num)
      · exact layoutScore_atleast layout5Max layout8Max 5 (2/5) 0
          (by norm_num [matchedSq, minSq, sqDist, min_def, List.filter,
            layout5Max, layout8Max])
          (by norm_num) (by rw [len_l5, len_l8]; norm_num) (by norm_num)
      · exact layoutScore_atleast layout5Max layout9Max 5 (2/5) 0
          (by norm_num [matchedSq, minSq, sqDist, min_def, List.filter,
            layout5Max, layout9Max])
          (by norm_num) (by rw [len_l5, len_l9]; norm_num) (by norm_num)
  exact inferirFormato_of_fold layout5Max "5-Max" 0 (by simp [layout5Max])
    (by rw [tp_l5]; exact hfold) (by norm_num)

theorem roundtrip_l6 : inferirFormato layout6Max = "6-Max" := by
  have hA : layoutScore layout6Max layout6Max = some 0 :=
    layoutScore_eval_zeroE layout6Max layout6Max 7 0
      (by norm_num [matchedSq, minSq, sqDist, min_def, List.filter,
        List.replicate, layout6Max])
      (by norm_num) (by rw [len_l6]; norm_num)
  have hfold : classifyFold layout6Max = ("6-Max", some 0) := by
    refine classifyFold_argmin layout6Max
      [("3-Max", layout3Max), ("4-Max", layout4Max), ("5-Max", layout5Max)]
      [("8-Max", layout8Max), ("9-Max", layout9Max)]
      ("6-Max", layout6Max) 0 rfl hA ?_ ?_
    · intro nl hnl
      fin_cases hnl
      · exact layoutScore_above layout6Max layout3Max 3 20 0
          (by norm_num [matchedSq, minSq, sqDist, min_def, List.filter,
            layout6Max, layout3Max])
          (by norm_num) (by rw [len_l6, len_l3]; norm_num) (by norm_num)
      · exact layoutScore_above layout6Max layout4Max 3 (201/10) 0
          (by norm_num [matchedSq, minSq, sqDist, min_def, List.filter,
            layout6Max, layout4Max])
          (by norm_num) (by rw [len_l6, len_l4]; norm_num) (by norm_num)
      · exact layoutScore_above layout6Max layout5Max 5 10 0
          (by norm_num [matchedSq, minSq, sqDist, min_def, List.filter,
            layout6Max, layout5Max])
          (by norm_num) (by rw [len_l6, len_l5]; norm_num) (by norm_num)
    · intro nl hnl
      fin_cases hnl
      · exact layoutScore_atleast layout6Max layout8Max 7 (1/5) 0
          (by norm_num [matchedSq, minSq, sqDist, min_def, List.filter,
            layout6Max, layout8Max])
          (by norm_num) (by rw [len_l6, len_l8]; norm_num) (by norm_num)
      · exact layoutScore_atleast layout6Max layout9Max 7 (1/5) 0
          (by norm_num [matchedSq, minSq, sqDist, min_def, List.filter,
            layout6Max, layout9Max])
          (by norm_num) (by rw [len_l6, len_l9]; norm_num) (by norm_num)
  exact inferirFormato_of_fold layout6Max "6-Max" 0 (by simp [layout6Max])
    (by rw [tp_l6]; exact hfold) (by norm_num)

set_option maxHeartbeats 2000000 in
theorem roundtrip_l8 : inferirFormato layout8Max = "8-Max" := by
  have hA : layoutScore layout8Max layout8Max = some 0 :=
    layoutScore_eval_zeroE layout8Max layout8Max 9 0
      (by norm_num [matchedSq, minSq, sqDist, min_def, List.filter,
        List.replicate, layout8Max])
      (by norm_num) (by rw [len_l8]; norm_num)
  have hfold : classifyFold layout8Max = ("8-Max", some 0) := by
    refine classifyFold_argmin layout8Max
      [("3-Max", layout3Max), ("4-Max", layout4Max), ("5-Max", layout5Max),
       ("6-Max", layout6Max)]
      [("9-Max", layout9Max)]
      ("8-Max", layout8Max) 0 rfl hA ?_ ?_
    · intro nl hnl
      fin_cases hnl
      · exact layoutScore_above layout8Max layout3Max 3 30 0
          (by norm_num [matchedSq, minSq, sqDist, min_def, List.filter,
            layout8Max, layout3Max])
          (by norm_num) (by rw [len_l8, len_l3]; norm_num) (by norm_num)
      · exact layoutScore_above layout8Max layout4Max 5 (199/10) 0
          (by norm_num [matchedSq, minSq, sqDist, min_def, List.filter,
            layout8Max, layout4Max])
          (by norm_num) (by rw [len_l8, len_l4]; norm_num) (by norm_num)
      · exact layoutScore_above layout8Max layout5Max 5 20 0
          (by norm_num [matchedSq, minSq, sqDist, min_def, List.filter,
            layout8Max, layout5Max])
          (by norm_num) (by rw [len_l8, len_l5]; norm_num) (by norm_num)
      · exact layoutScore_above layout8Max layout6Max 7 10 0
          (by norm_num [matchedSq, minSq, sqDist, min_def, List.filter,
            layout8Max, layout6Max])
          (by norm_num) (by rw [len_l8, len_l6]; norm_num) (by norm_num)
    · intro nl hnl
      fin_cases hnl
      exact layoutScore_atleast layout8Max layout9Max 9 0 0
        (by norm_num [matchedSq, minSq, sqDist, min_def, List.filter,
          layout8Max, layout9Max])
        (by norm_num) (by rw [len_l8, len_l9]; norm_num) (by norm_num)
  exact inferirFormato_of_fold layout8Max "8-Max" 0 (by simp [layout8Max])
    (by rw [tp_l8]; exact hfold) (by norm_num)

set_option maxHeartbeats 2000000 in
/-- Feeding the 9-Max layout's own points to the classifier yields "6-Max":
all nine points lie within the 0.15 tolerance of some 6-Max seat, and the
empty-seat penalty `(7 - 9) * 0.1 = -0.2` outweighs the small average
matching error, giving 6-Max a negative score that beats 9-Max's exact 0. -/
theorem roundtrip_l9_is_6max : inferirFormato layout9Max = "6-Max" := by
  have hms96 : matchedSq layout9Max layout6Max
      = [0, 17/10000, 13/2000, 173/10000, 17/5000, 17/5000, 173/10000,
         13/2000, 17/10000] := by
    norm_num [matchedSq, minSq, sqDist, min_def, List.filter,
      layout9Max, layout6Max]
  have hlen96 : (matchedSq layout9Max layout6Max).length = 9 := by
    rw [hms96]
    rfl
  have hsum_lt : ((matchedSq layout9Max layout6Max).map
      (fun q : ℚ => Real.sqrt (q : ℝ))).sum < 9/5 := by
    rw [hms96]
    simp only [List.map_cons, List.map_nil, List.sum_cons, List.sum_nil]
    have h0 : Real.sqrt ((0 : ℚ) : ℝ) = 0 := by
      rw [show ((0:ℚ):ℝ) = 0 by norm_num, Real.sqrt_zero]
    have b1 : Real.sqrt ((17/10000 : ℚ) : ℝ) < 21/500 := by
      rw [Real.sqrt_lt' (by norm_num : (0:ℝ) < 21/500)]
      push_cast
      norm_num
    have b2 : Real.sqrt ((13/2000 : ℚ) : ℝ) < 81/1000 := by
      rw [Real.sqrt_lt' (by norm_num : (0:ℝ) < 81/1000)]
      push_cast
      norm_num
    have b3 : Real.sqrt ((173/10000 : ℚ) : ℝ) < 33/250 := by
      rw [Real.sqrt_lt' (by norm_num : (0:ℝ) < 33/250)]
      push_cast
      norm_num
    have b4 : Real.sqrt ((17/5000 : ℚ) : ℝ) < 59/1000 := by
      rw [Real.sqrt_lt' (by norm_num : (0:ℝ) < 59/1000)]
      push_cast
      norm_num
    rw [h0]
    linarith
  have hform : scoreOf layout9Max layout6Max
      = ((matchedSq layout9Max layout6Max).map
          (fun q : ℚ => Real.sqrt (q : ℝ))).sum / 9 - 1/5 := by
    unfold scoreOf
    rw [layerStats_eq]
    dsimp only
    rw [hlen96, len_l9, len_l6]
    push_cast
    ring
  have hneg : scoreOf layout9Max layout6Max < 0 := by
    rw [hform]
    have hnn := sum_sqrt_nonneg (matchedSq layout9Max layout6Max)
    linarith
  have hA : layoutScore layout9Max layout6Max
      = some (scoreOf layout9Max layout6Max) :=
    layoutScore_defined layout9Max layout6Max (by rw [hlen96]; norm_num)
  have hzero9 : layoutScore layout9Max layout9Max = some 0 :=
    layoutScore_eval_zeroE layout9Max layout9Max 9 0
      (by norm_num [matchedSq, minSq, sqDist, min_def, List.filter,
        List.replicate, layout9Max])
      (by norm_num) (by rw [len_l9]; norm_num)
  have hfold : classifyFold layout9Max
      = ("6-Max", some (scoreOf layout9Max layout6Max)) := by
    refine classifyFold_argmin layout9Max
      [("3-Max", layout3Max), ("4-Max", layout4Max), ("5-Max", layout5Max)]
      [("8-Max", layout8Max), ("9-Max", layout9Max)]
      ("6-Max", layout6Max) (scoreOf layout9Max layout6Max) rfl hA ?_ ?_
    · intro nl hnl
      fin_cases hnl
      · exact layoutScore_above layout9Max layout3Max 3 30
          (scoreOf layout9Max layout6Max)
          (by norm_num [matchedSq, minSq, sqDist, min_def, List.filter,
            layout9Max, layout3Max])
          (by norm_num) (by rw [len_l9, len_l3]; norm_num) (by linarith)
      · exact layoutScore_above layout9Max layout4Max 5 (199/10)
          (scoreOf layout9Max layout6Max)
          (by norm_num [matchedSq, minSq, sqDist, min_def, List.filter,
            layout9Max, layout4Max])
          (by norm_num) (by rw [len_l9, len_l4]; norm_num) (by linarith)
      · exact layoutScore_above layout9Max layout5Max 7 (49/5)
          (scoreOf layout9Max layout6Max)
          (by norm_num [matchedSq, minSq, sqDist, min_def, List.filter,
            layout9Max, layout5Max])
          (by norm_num) (by rw [len_l9, len_l5]; norm_num) (by linarith)
    · intro nl hnl
      fin_cases hnl
      · exact layoutScore_atleast layout9Max layout8Max 9 0
          (scoreOf layout9Max layout6Max)
          (by norm_num [matchedSq, minSq, sqDist, min_def, List.filter,
            layout9Max, layout8Max])
          (by norm_num) (by rw [len_l9, len_l8]; norm_num) (le_of_lt hneg)
      · intro s hs
        rw [hzero9] at hs
        obtain rfl := (Option.some_inj.mp hs).symm
        exact le_of_lt hneg
  exact inferirFormato_of_fold layout9Max "6-Max"
    (scoreOf layout9Max layout6Max) (by simp [layout9Max])
    (by rw [tp_l9]; exact hfold) (by push_neg; linarith)

/-- Counterexample to C3 as stated: running the classifier on exactly the
9-Max layout's own coordinate list returns "6-Max" — another layout's name,
not "9-Max" and not the sentinel. -/
theorem c3_counterexample :
    inferirFormato layout9Max = "6-Max"
    ∧ inferirFormato layout9Max ≠ "9-Max"
    ∧ inferirFormato layout9Max ≠ "Detectando..." := by
  refine ⟨roundtrip_l9_is_6max, ?_, ?_⟩
  · rw [roundtrip_l9_is_6max]; decide
  · rw [roundtrip_l9_is_6max]; decide

/-- Claim C3 (amended): the round trip holds for five of the six canonical
layouts — feeding exactly the layout's own coordinate list (hero at index 0)
returns that layout's name. It fails for 9-Max, whose own points are returned
as "6-Max" (see the counterexample): 6-Max matches all nine points within
tolerance and its negative empty-seat penalty produces a score below 9-Max's
own exact 0. -/
theorem c3_roundtrip_amended :
    inferirFormato layout3Max = "3-Max"
    ∧ inferirFormato layout4Max = "4-Max"
    ∧ inferirFormato layout5Max = "5-Max"
    ∧ inferirFormato layout6Max = "6-Max"
    ∧ inferirFormato layout8Max = "8-Max" :=
  ⟨roundtrip_l3, roundtrip_l4, roundtrip_l5, roundtrip_l6, roundtrip_l8⟩

/-! ## Sentinel characterization (claim C7) -/

theorem canonical_not_sentinel : ∀ n ∈ canonicalNames, n ≠ "Detectando..." := by
  decide

/-- Claim C7 (amended): the classifier returns the "Detectando..." sentinel
iff the input is empty, or every canonical layout either matches no test
point at all (and is skipped) or scores above the 3.0 rejection ceiling.
Achieving a matched point is NOT enough to avoid the sentinel: the score can
still exceed the ceiling (see the counterexample). -/
theorem c7_sentinel_iff (pts : List (ℚ × ℚ)) :
    inferirFormato pts = "Detectando..."
      ↔ (pts = [] ∨ ∀ nl ∈ GG_LAYOUTS,
            layoutScore (testPoints pts) nl.2 = none
            ∨ ∃ s, layoutScore (testPoints pts) nl.2 = some s ∧ 3 < s) := by
  by_cases hp : pts = []
  · simp [inferirFormato, hp]
  · rcases hval : (classifyFold (testPoints pts)).2 with _ | m
    · have hlhs : inferirFormato pts = "Detectando..." := by
        unfold inferirFormato
        rw [if_neg hp]
        rcases hcf : classifyFold (testPoints pts) with ⟨b, o⟩
        rw [hcf] at hval
        simp only at hval
        subst hval
        rfl
      refine iff_of_true hlhs (Or.inr ?_)
      intro nl hnl
      rcases hsc : layoutScore (testPoints pts) nl.2 with _ | s
      · exact Or.inl rfl
      · exfalso
        obtain ⟨m, hm, _⟩ := foldl_le_defined (testPoints pts) GG_LAYOUTS
          ("Custom", none) nl hnl s hsc
        rw [← classifyFold_def, hval] at hm
        exact Option.noConfusion hm
    · by_cases h3 : (3:ℝ) < m
      · have hlhs : inferirFormato pts = "Detectando..." := by
          rcases hcf : classifyFold (testPoints pts) with ⟨b, o⟩
          rw [hcf] at hval
          simp only at hval
          subst hval
          exact inferirFormato_sentinel_of_fold pts b m hp hcf h3
        refine iff_of_true hlhs (Or.inr ?_)
        intro nl hnl
        rcases hsc : layoutScore (testPoints pts) nl.2 with _ | s
        · exact Or.inl rfl
        · refine Or.inr ⟨s, rfl, ?_⟩
          obtain ⟨m', hm', hle⟩ := foldl_le_defined (testPoints pts) GG_LAYOUTS
            ("Custom", none) nl hnl s hsc
          rw [← classifyFold_def, hval] at hm'
          obtain rfl := Option.some_inj.mp hm'
          linarith
      · have hname : (classifyFold (testPoints pts)).1 ∈ canonicalNames := by
          refine foldl_name_mem (testPoints pts) GG_LAYOUTS canonicalNames
            ("Custom", none) ?_ ?_ ?_
          · intro nl hnl
            exact List.mem_map.mpr ⟨nl, hnl, rfl⟩
          · intro hn; exact absurd rfl hn
          · rw [← classifyFold_def, hval]
            exact Option.noConfusion
        have hlhs : inferirFormato pts = (classifyFold (testPoints pts)).1 := by
          rcases hcf : classifyFold (testPoints pts) with ⟨b, o⟩
          rw [hcf] at hval
          simp only at hval
          subst hval
          exact inferirFormato_of_fold pts b m hp hcf h3
        refine iff_of_false ?_ ?_
        · rw [hlhs]
          exact canonical_not_sentinel _ hname
        · intro hrhs
          rcases hrhs with hrhs | hrhs
          · exact hp hrhs
          · rcases foldl_achieved (testPoints pts) GG_LAYOUTS ("Custom", none)
              m (by rw [← classifyFold_def]; exact hval) with hacc | ⟨nl, hnl, hsc⟩
            · exact Option.noConfusion hacc
            · rcases hrhs nl hnl with hnone | ⟨s, hsome, hgt⟩
              · rw [hsc] at hnone; exact Option.noConfusion hnone
              · rw [hsc] at hsome
                obtain rfl := Option.some_inj.mp hsome
                exact h3 hgt

/-- Counterexample to C7 as stated: on the input {hero point, (0.5, 0)} every
layout matches the hero point exactly (1 matched point, zero error), yet all
scores are at least 5.2 because of the unexplained second point, so the
minimum exceeds the 3.0 ceiling and the classifier returns the sentinel even
though layouts achieved a matched point. -/
theorem c7_counterexample :
    inferirFormato [((1:ℚ)/2, (17:ℚ)/25), ((1:ℚ)/2, 0)] = "Detectando..."
    ∧ 1 ≤ (layerStats (testPoints [((1:ℚ)/2, (17:ℚ)/25), ((1:ℚ)/2, 0)])
        layout3Max).2 := by
  have htp : testPoints [((1:ℚ)/2, (17:ℚ)/25), ((1:ℚ)/2, 0)]
      = [((1:ℚ)/2, (17:ℚ)/25), ((1:ℚ)/2, 0)] := by
    norm_num [testPoints, hasHero]
  have h3 : layoutScore [((1:ℚ)/2, (17:ℚ)/25), ((1:ℚ)/2, 0)] layout3Max
      = some (26/5) :=
    layoutScore_eval_zeroE _ layout3Max 1 (26/5)
      (by norm_num [matchedSq, minSq, sqDist, min_def, List.filter,
        List.replicate, layout3Max])
      (by norm_num) (by rw [len_l3]; norm_num)
  have hfold : classifyFold [((1:ℚ)/2, (17:ℚ)/25), ((1:ℚ)/2, 0)]
      = ("3-Max", some (26/5)) := by
    refine classifyFold_argmin _ []
      [("4-Max", layout4Max), ("5-Max", layout5Max), ("6-Max", layout6Max),
       ("8-Max", layout8Max), ("9-Max", layout9Max)]
      ("3-Max", layout3Max) (26/5) rfl h3 (by intro nl hnl; simp at hnl) ?_
    intro nl hnl
    fin_cases hnl
    · exact layoutScore_atleast _ layout4Max 1 (53/10) (26/5)
        (by norm_num [matchedSq, minSq, sqDist, min_def, List.filter,
          layout4Max])
        (by norm_num) (by rw [len_l4]; norm_num) (by norm_num)
    · exact layoutScore_atleast _ layout5Max 1 (27/5) (26/5)
        (by norm_num [matchedSq, minSq, sqDist, min_def, List.filter,
          layout5Max])
        (by norm_num) (by rw [len_l5]; norm_num) (by norm_num)
    · exact layoutScore_atleast _ layout6Max 1 (28/5) (26/5)
        (by norm_num [matchedSq, minSq, sqDist, min_def, List.filter,
          layout6Max])
        (by norm_num) (by rw [len_l6]; norm_num) (by norm_num)
    · exact layoutScore_atleast _ layout8Max 1 (29/5) (26/5)
        (by norm_num [matchedSq, minSq, sqDist, min_def, List.filter,
          layout8Max])
        (by norm_num) (by rw [len_l8]; norm_num) (by norm_num)
    · exact layoutScore_atleast _ layout9Max 1 (29/5) (26/5)
        (by norm_num [matchedSq, minSq, sqDist, min_def, List.filter,
          layout9Max])
        (by norm_num) (by rw [len_l9]; norm_num) (by norm_num)
  constructor
  · exact inferirFormato_sentinel_of_fold _ "3-Max" (26/5) (by simp)
      (by rw [htp]; exact hfold) (by norm_num)
  · rw [layerStats_eq]
    dsimp only
    rw [htp]
    have : matchedSq [((1:ℚ)/2, (17:ℚ)/25), ((1:ℚ)/2, 0)] layout3Max
        = [0] := by
      norm_num [matchedSq, minSq, sqDist, min_def, List.filter, layout3Max]
    rw [this]
    norm_num

/-! ## The 8-Max/9-Max exact tie (claim C8)

On the input {hero, (0.35, 0.10)} the second point is at exact rational
distance 0.13 from the nearest 8-Max seat (0.40, 0.22) and from the nearest
9-Max seat (0.30, 0.22), and outside every other layout's tolerance, so
8-Max and 9-Max score exactly (0.13)/2 + 0.7 = 153/200 each while every
other layout scores at least 5.2. -/

theorem p8_tp : testPoints [((1:ℚ)/2, (17:ℚ)/25), ((7:ℚ)/20, (1:ℚ)/10)]
    = [((1:ℚ)/2, (17:ℚ)/25), ((7:ℚ)/20, (1:ℚ)/10)] := by
  norm_num [testPoints, hasHero]

theorem p8_sqrt : Real.sqrt ((169/10000 : ℚ) : ℝ) = 13/100 := by
  rw [show ((169/10000 : ℚ) : ℝ) = (13/100 : ℝ)^2 by push_cast; norm_num]
  exact Real.sqrt_sq (by norm_num)

theorem p8_score8 :
    layoutScore [((1:ℚ)/2, (17:ℚ)/25), ((7:ℚ)/20, (1:ℚ)/10)] layout8Max
      = some (153/200) := by
  have hms : matchedSq [((1:ℚ)/2, (17:ℚ)/25), ((7:ℚ)/20, (1:ℚ)/10)] layout8Max
      = [0, 169/10000] := by
    norm_num [matchedSq, minSq, sqDist, min_def, List.filter, layout8Max]
  rw [layoutScore_defined _ _ (by rw [hms]; norm_num)]
  congr 1
  unfold scoreOf
  rw [layerStats_eq]
  dsimp only
  rw [hms, len_l8]
  simp only [List.map_cons, List.map_nil, List.sum_cons, List.sum_nil,
    List.length_cons, List.length_nil]
  rw [show ((0:ℚ):ℝ) = 0 by norm_num, Real.sqrt_zero, p8_sqrt]
  norm_num

theorem p8_score9 :
    layoutScore [((1:ℚ)/2, (17:ℚ)/25), ((7:ℚ)/20, (1:ℚ)/10)] layout9Max
      = some (153/200) := by
  have hms : matchedSq [((1:ℚ)/2, (17:ℚ)/25), ((7:ℚ)/20, (1:ℚ)/10)] layout9Max
      = [0, 169/10000] := by
    norm_num [matchedSq, minSq, sqDist, min_def, List.filter, layout9Max]
  rw [layoutScore_defined _ _ (by rw [hms]; norm_num)]
  congr 1
  unfold scoreOf
  rw [layerStats_eq]
  dsimp only
  rw [hms, len_l9]
  simp only [List.map_cons, List.map_nil, List.sum_cons, List.sum_nil,
    List.length_cons, List.length_nil]
  rw [show ((0:ℚ):ℝ) = 0 by norm_num, Real.sqrt_zero, p8_sqrt]
  norm_num

theorem p8_score_small (nl : String × List (ℚ × ℚ))
    (hnl : nl ∈ [("3-Max", layout3Max), ("4-Max", layout4Max),
      ("5-Max", layout5Max), ("6-Max", layout6Max)]) :
    ∀ t, layoutScore [((1:ℚ)/2, (17:ℚ)/25), ((7:ℚ)/20, (1:ℚ)/10)] nl.2
        = some t → (153/200 : ℝ) < t := by
  fin_cases hnl
  · exact fun t ht => lt_of_lt_of_le (by norm_num)
      (layoutScore_atleast _ layout3Max 1 (26/5) (26/5)
        (by norm_num [matchedSq, minSq, sqDist, min_def, List.filter,
          layout3Max])
        (by norm_num) (by rw [len_l3]; norm_num) (le_refl _) t ht)
  · exact fun t ht => lt_of_lt_of_le (by norm_num)
      (layoutScore_atleast _ layout4Max 1 (53/10) (53/10)
        (by norm_num [matchedSq, minSq, sqDist, min_def, List.filter,
          layout4Max])
        (by norm_num) (by rw [len_l4]; norm_num) (le_refl _) t ht)
  · exact fun t ht => lt_of_lt_of_le (by norm_num)
      (layoutScore_atleast _ layout5Max 1 (27/5) (27/5)
        (by norm_num [matchedSq, minSq, sqDist, min_def, List.filter,
          layout5Max])
        (by norm_num) (by rw [len_l5]; norm_num) (le_refl _) t ht)
  · exact fun t ht => lt_of_lt_of_le (by norm_num)
      (layoutScore_atleast _ layout6Max 1 (28/5) (28/5)
        (by norm_num [matchedSq, minSq, sqDist, min_def, List.filter,
          layout6Max])
        (by norm_num) (by rw [len_l6]; norm_num) (le_refl _) t ht)

theorem p8_fold :
    classifyFold [((1:ℚ)/2, (17:ℚ)/25), ((7:ℚ)/20, (1:ℚ)/10)]
      = ("8-Max", some (153/200)) := by
  refine classifyFold_argmin _
    [("3-Max", layout3Max), ("4-Max", layout4Max), ("5-Max", layout5Max),
     ("6-Max", layout6Max)]
    [("9-Max", layout9Max)]
    ("8-Max", layout8Max) (153/200) rfl p8_score8 ?_ ?_
  · intro nl hnl
    rcases hsc : layoutScore [((1:ℚ)/2, (17:ℚ)/25), ((7:ℚ)/20, (1:ℚ)/10)] nl.2
        with _ | t
    · exact Or.inl rfl
    · exact Or.inr ⟨t, rfl, p8_score_small nl hnl t hsc⟩
  · intro nl hnl t ht
    fin_cases hnl
    rw [p8_score9] at ht
    obtain rfl := Option.some_inj.mp ht
    exact le_refl _

/-- Claim C8 (amended): when two layouts achieve exactly equal scores, both
below every other layout's score and at most the rejection ceiling, the
classifier returns the tying layout that appears EARLIER in the layout
table; since the table is ordered by nondecreasing seat count, the returned
layout never has more canonical seats than the other (for the only
equal-score-capable pair with equal counts, 8-Max and 9-Max, both have nine
coordinates and 8-Max is returned). -/
theorem c8_tie_earlier (pts : List (ℚ × ℚ))
    (L1 L2 L3 : List (String × List (ℚ × ℚ)))
    (A B : String × List (ℚ × ℚ)) (s : ℝ)
    (hGG : GG_LAYOUTS = L1 ++ A :: (L2 ++ B :: L3))
    (hpts : pts ≠ [])
    (hA : layoutScore (testPoints pts) A.2 = some s)
    (hB : layoutScore (testPoints pts) B.2 = some s)
    (hothers : ∀ nl, nl ∈ L1 ∨ nl ∈ L2 ∨ nl ∈ L3 →
      ∀ t, layoutScore (testPoints pts) nl.2 = some t → s < t)
    (hceil : ¬ 3 < s) :
    inferirFormato pts = A.1 ∧ A.2.length ≤ B.2.length := by
  have hfold : classifyFold (testPoints pts) = (A.1, some s) := by
    refine classifyFold_argmin (testPoints pts) L1 (L2 ++ B :: L3) A s hGG hA
      ?_ ?_
    · intro nl hnl
      rcases hsc : layoutScore (testPoints pts) nl.2 with _ | t
      · exact Or.inl rfl
      · exact Or.inr ⟨t, rfl, hothers nl (Or.inl hnl) t hsc⟩
    · intro nl hnl t ht
      rcases List.mem_append.mp hnl with h2 | hB'
      · exact le_of_lt (hothers nl (Or.inr (Or.inl h2)) t ht)
      · rcases List.mem_cons.mp hB' with rfl | h3
        · rw [hB] at ht
          obtain rfl := Option.some_inj.mp ht
          exact le_refl _
        · exact le_of_lt (hothers nl (Or.inr (Or.inr h3)) t ht)
  constructor
  · exact inferirFormato_of_fold pts A.1 s hpts hfold hceil
  · have hmap := congrArg
      (List.map (fun nl : String × List (ℚ × ℚ) => nl.2.length)) hGG
    have hconst : GG_LAYOUTS.map
        (fun nl : String × List (ℚ × ℚ) => nl.2.length) = [3, 4, 5, 7, 9, 9] :=
      rfl
    rw [hconst] at hmap
    simp only [List.map_append, List.map_cons] at hmap
    have hsort : List.Pairwise (fun a b : ℕ => a ≤ b)
        ([3, 4, 5, 7, 9, 9] : List ℕ) := by decide
    rw [hmap] at hsort
    obtain ⟨-, hrest, -⟩ := List.pairwise_append.mp hsort
    rw [List.pairwise_cons] at hrest
    exact hrest.1 B.2.length (by simp)

/-- Witness for C8 (amended): the concrete 8-Max/9-Max tie at score 153/200,
resolved to "8-Max", the earlier (and not larger) of the two. -/
theorem c8_tie_earlier_witness :
    inferirFormato [((1:ℚ)/2, (17:ℚ)/25), ((7:ℚ)/20, (1:ℚ)/10)] = "8-Max"
    ∧ layout8Max.length ≤ layout9Max.length := by
  have h := c8_tie_earlier [((1:ℚ)/2, (17:ℚ)/25), ((7:ℚ)/20, (1:ℚ)/10)]
    [("3-Max", layout3Max), ("4-Max", layout4Max), ("5-Max", layout5Max),
     ("6-Max", layout6Max)]
    [] [] ("8-Max", layout8Max) ("9-Max", layout9Max) (153/200)
    rfl (by simp)
    (by rw [p8_tp]; exact p8_score8)
    (by rw [p8_tp]; exact p8_score9)
    (by
      intro nl hnl t ht
      rw [p8_tp] at ht
      rcases hnl with h1 | h2 | h3
      · exact p8_score_small nl h1 t ht
      · simp at h2
      · simp at h3)
    (by norm_num)
  exact h

/-- Counterexample to C8 as stated: at the concrete tie input the premise of
the claim holds — 8-Max and 9-Max score exactly 153/200 each, below every
other layout's score and below the 3.0 ceiling — but both tying layouts have
nine canonical coordinates, so no "layout with fewer canonical seats" exists;
the classifier returns "8-Max", the one listed earlier. -/
theorem c8_counterexample :
    layoutScore (testPoints [((1:ℚ)/2, (17:ℚ)/25), ((7:ℚ)/20, (1:ℚ)/10)])
        layout8Max = some (153/200)
    ∧ layoutScore (testPoints [((1:ℚ)/2, (17:ℚ)/25), ((7:ℚ)/20, (1:ℚ)/10)])
        layout9Max = some (153/200)
    ∧ (153/200 : ℝ) ≤ 3
    ∧ (∀ nl ∈ [("3-Max", layout3Max), ("4-Max", layout4Max),
        ("5-Max", layout5Max), ("6-Max", layout6Max)],
        ∀ t, layoutScore
          (testPoints [((1:ℚ)/2, (17:ℚ)/25), ((7:ℚ)/20, (1:ℚ)/10)]) nl.2
            = some t → (153/200 : ℝ) < t)
    ∧ inferirFormato [((1:ℚ)/2, (17:ℚ)/25), ((7:ℚ)/20, (1:ℚ)/10)] = "8-Max"
    ∧ layout8Max.length = 9 ∧ layout9Max.length = 9 := by
  refine ⟨by rw [p8_tp]; exact p8_score8, by rw [p8_tp]; exact p8_score9,
    by norm_num, ?_, ?_, len_l8, len_l9⟩
  · intro nl hnl t ht
    rw [p8_tp] at ht
    exact p8_score_small nl hnl t ht
  · exact inferirFormato_of_fold _ "8-Max" (153/200) (by simp)
      (by rw [p8_tp]; exact p8_fold) (by norm_num)

/-! ## Table-format publication (claim C10) -/

theorem inferirFormato_range (pts : List (ℚ × ℚ)) :
    inferirFormato pts = "Detectando..." ∨ inferirFormato pts ∈ canonicalNames := by
  by_cases hp : pts = []
  · left; simp [inferirFormato, hp]
  · rcases hval : (classifyFold (testPoints pts)).2 with _ | m
    · left
      unfold inferirFormato
      rw [if_neg hp]
      rcases hcf : classifyFold (testPoints pts) with ⟨b, o⟩
      rw [hcf] at hval
      simp only at hval
      subst hval
      rfl
    · by_cases h3 : (3:ℝ) < m
      · left
        rcases hcf : classifyFold (testPoints pts) with ⟨b, o⟩
        rw [hcf] at hval
        simp only at hval
        subst hval
        exact inferirFormato_sentinel_of_fold pts b m hp hcf h3
      · right
        have hname : (classifyFold (testPoints pts)).1 ∈ canonicalNames := by
          refine foldl_name_mem (testPoints pts) GG_LAYOUTS canonicalNames
            ("Custom", none) ?_ ?_ ?_
          · intro nl hnl
            exact List.mem_map.mpr ⟨nl, hnl, rfl⟩
          · intro hn; exact absurd rfl hn
          · rw [← classifyFold_def, hval]
            exact Option.noConfusion
        have hlhs : inferirFormato pts = (classifyFold (testPoints pts)).1 := by
          rcases hcf : classifyFold (testPoints pts) with ⟨b, o⟩
          rw [hcf] at hval
          simp only at hval
          subst hval
          exact inferirFormato_of_fold pts b m hp hcf h3
        rw [hlhs]
        exact hname

/-- Claim C10: the published "table_format" is never the sentinel — the
table sizer always writes one of the canonical names ("9-Max" or the
"6-Max" default, whatever the stack and level counts), the card detector
overwrites the previous value only when the geometric classification is not
the "Detectando..." sentinel, and while it is the sentinel the previously
published canonical name persists. -/
theorem c10_table_format (prev : String) (pts : List (ℚ × ℚ))
    (final_count final_levels : ℕ) (hprev : prev ∈ canonicalNames) :
    tableSizerFormat final_count final_levels ∈ canonicalNames
    ∧ applyCardDetectorFormat prev (inferirFormato pts) ∈ canonicalNames
    ∧ (inferirFormato pts = "Detectando..." →
        applyCardDetectorFormat prev (inferirFormato pts) = prev) := by
  refine ⟨?_, ?_, ?_⟩
  · unfold tableSizerFormat
    by_cases h1 : 6 < final_count
    · rw [if_pos h1]; decide
    · rw [if_neg h1]
      by_cases h2 : 5 ≤ final_levels
      · rw [if_pos h2]; decide
      · rw [if_neg h2]; decide
  · rcases inferirFormato_range pts with h | h
    · rw [h]
      unfold applyCardDetectorFormat
      rw [if_neg (by simp)]
      exact hprev
    · unfold applyCardDetectorFormat
      rw [if_pos (canonical_not_sentinel _ h)]
      exact h
  · intro h
    rw [h]
    unfold applyCardDetectorFormat
    rw [if_neg (by simp)]

/-- Witness for C10 at a concrete previous value and empty classifier
input. -/
theorem c10_table_format_witness :
    tableSizerFormat 0 0 ∈ canonicalNames
    ∧ applyCardDetectorFormat "6-Max" (inferirFormato []) ∈ canonicalNames
    ∧ (inferirFormato [] = "Detectando..." →
        applyCardDetectorFormat "6-Max" (inferirFormato []) = "6-Max") :=
  c10_table_format "6-Max" [] 0 0 (by decide)
